import Mathlib

/-!
# Verification of the service-agreement pricing and templating logic

Shallow embedding of `src/fillData.js` (the final, authoritative version of the
service-agreement HTML builder; `src/unnamed/part_000` and `part_001` are earlier
iterations of the same module).

Modelling conventions:
* JavaScript numbers are modelled as exact rationals (`ℚ`).  All arithmetic that
  the pricing engine performs (sums, products, `Math.max`) is exact; IEEE-754
  rounding, overflow to `Infinity`, and `NaN` propagation inside `computeGrandTotal`
  are not representable (the parsing helper `getNumber` only produces finite values,
  so no `NaN` arises in the pricing path).  Where a JS value can genuinely be
  non-finite (the argument of `getDiscountDefault`, sums of `Number(...)` coercions
  in the equipment summary) it is modelled as `Option ℚ`, `none` standing for a
  non-finite number.
* JavaScript strings are modelled as Lean `String`s, manipulated through their
  underlying `List Char`.  `String.prototype.toLowerCase` / `toUpperCase` are
  modelled on the ASCII range (every comparison the program performs is against
  ASCII literals); `trim` uses the JS WhiteSpace/LineTerminator set.
* Loosely typed JS values that the code feeds to `getNumber` (prices, chute
  counts, quantities, odour units, `incentives`) are modelled by the sum type
  `JVal` (finite number, string, null/undefined, NaN, ±Infinity).
-/

/-! ## JavaScript primitives -/

/-- A loosely-typed JavaScript value as it occurs in the data object:
a finite number, a string, `null`/`undefined` (conflated), `NaN`, or `±Infinity`. -/
inductive JVal where
  | num (q : ℚ)
  | str (s : String)
  | nul
  | nan
  | inf
  | ninf
deriving DecidableEq

/-- JS truthiness of a `JVal` (`Boolean(v)`): `0`, `""`, `null`/`undefined` and
`NaN` are falsy, everything else is truthy. -/
def JVal.truthy : JVal → Bool
  | .num q => q ≠ 0
  | .str s => s ≠ ""
  | .nul => false
  | .nan => false
  | .inf => true
  | .ninf => true

/-- Characters treated as whitespace by `String.prototype.trim`
(JS WhiteSpace ∪ LineTerminator). -/
def jsWhitespaceChar (c : Char) : Bool :=
  c = ' ' || c = '\t' || c = '\n' || c = '\r' ||
  c.val = 11 || c.val = 12 || c.val = 160 || c.val = 0xFEFF ||
  c.val = 0x2028 || c.val = 0x2029

/-- `String.prototype.trim` on the character list. -/
def trimChars (l : List Char) : List Char :=
  ((l.dropWhile jsWhitespaceChar).reverse.dropWhile jsWhitespaceChar).reverse

/-- `String.prototype.trim`. -/
def jsTrim (s : String) : String := ⟨trimChars s.data⟩

/-- `String.prototype.toLowerCase`, modelled on the ASCII range
(`Char.toLower` lowercases exactly `'A'..'Z'`). -/
def jsLower (s : String) : String := ⟨s.data.map Char.toLower⟩

/-- `String.prototype.toUpperCase`, modelled on the ASCII range. -/
def jsUpper (s : String) : String := ⟨s.data.map Char.toUpper⟩

/-! ## `getNumber` — src/fillData.js lines 105–115 -/

/-- The character class kept by `String(val).replace(/[^0-9.,-]/g, "")`. -/
def keepNumChar (c : Char) : Bool :=
  c.isDigit || c = '.' || c = ',' || c = '-'

/-- `"...".replace(",", ".")` — JS `replace` with a string pattern replaces only
the first occurrence. -/
def replaceFirstComma : List Char → List Char
  | [] => []
  | c :: rest => if c = ',' then '.' :: rest else c :: replaceFirstComma rest

/-- Value of a digit string (most significant first). -/
def digitsToNat (l : List Char) : ℕ :=
  l.foldl (fun a c => a * 10 + (c.toNat - 48)) 0

/-- `parseFloat` on a sign-free input: longest prefix `digits [ '.' digits ]`;
`none` models `NaN`.  (The inputs this program feeds to `parseFloat` contain only
`[0-9.,-]`, so the exponent part of the JS grammar can never occur.)  The value is
the exact rational denoted by the decimal literal; IEEE-754 rounding of the result
is not modelled. -/
def parseUnsignedFloat (l : List Char) : Option ℚ :=
  let intDigits := l.takeWhile Char.isDigit
  let rest := l.dropWhile Char.isDigit
  match rest with
  | '.' :: r2 =>
      let fracDigits := r2.takeWhile Char.isDigit
      if intDigits = [] ∧ fracDigits = [] then none
      else some ((digitsToNat intDigits : ℚ) +
                 (digitsToNat fracDigits : ℚ) / 10 ^ fracDigits.length)
  | _ => if intDigits = [] then none else some (digitsToNat intDigits)

/-- `parseFloat` (on the character alphabet reachable in this program):
optional sign, then an unsigned decimal; `none` models `NaN`. -/
def parseFloatQ (l : List Char) : Option ℚ :=
  match l with
  | '-' :: rest => (parseUnsignedFloat rest).map (fun q => -q)
  | '+' :: rest => parseUnsignedFloat rest
  | _ => parseUnsignedFloat l

/-- The string-cleaning pipeline of `getNumber`:
strip to `[0-9.,-]`, then if both `.` and `,` occur strip every comma
(thousands separators), otherwise turn the first `,` into `.`;
finally `parseFloat`, with non-finite/`NaN` results collapsed to 0. -/
def parsePriceChars (s : String) : ℚ :=
  let cleaned := s.data.filter keepNumChar
  let normalized :=
    if '.' ∈ cleaned ∧ ',' ∈ cleaned then cleaned.filter (fun c => c ≠ ',')
    else replaceFirstComma cleaned
  match parseFloatQ normalized with
  | some q => q
  | none => 0

/-- `getNumber` (src/fillData.js:105): a finite number is returned as-is;
`null`/`undefined` give 0; anything else is coerced to a string
(`String(NaN) = "NaN"` etc., which clean to non-numeric and hence 0)
and run through the cleaning pipeline. -/
def getNumber (val : JVal) : ℚ :=
  match val with
  | .num q => q
  | .nul => 0
  | .str s => parsePriceChars s
  | .nan => parsePriceChars "NaN"
  | .inf => parsePriceChars "Infinity"
  | .ninf => parsePriceChars "-Infinity"

/-! ## `getDiscountDefault` — src/fillData.js lines 150–156 -/

/-- `getDiscountDefault` (src/fillData.js:150).  The JS number argument is
modelled as `Option ℚ`, with `none` standing for a non-finite number
(`NaN`/`±Infinity`), so that the `Number.isFinite(serviceCount)` guard is
expressible. -/
def getDiscountDefault (serviceCount : Option ℚ) : ℚ :=
  let c : ℚ := match serviceCount with | some q => q | none => 0
  if c < 3 then 0
  else if 4 ≤ c ∧ c < 6 then 5
  else if 6 ≤ c then 10
  else 0

/-! ## `frequencyToMultiplier` — src/fillData.js lines 168–176 -/

/-- `frequencyToMultiplier` (src/fillData.js:168); the argument is an
`Option String` (`none` = `null`/`undefined`, absorbed by `frequency ?? ""`). -/
def frequencyToMultiplier (frequency : Option String) : ℚ :=
  let f := jsLower (jsTrim (frequency.getD ""))
  if f = "" then 0
  else if f = "none" then 0
  else if f = "yearly" then 1
  else if f = "six-monthly" ∨ f = "6monthly" ∨ f = "six monthly" then 2
  else 4


/-! ## Number → string rendering (JS `ToString` on numbers, `toLocaleString`) -/

/-- Decimal digits of a natural number, most significant first. -/
def natDigits (n : ℕ) : List Char :=
  if h : n < 10 then [Char.ofNat (48 + n)]
  else natDigits (n / 10) ++ [Char.ofNat (48 + n % 10)]
termination_by n
decreasing_by
  exact Nat.div_lt_self (by omega) (by norm_num)

/-- Fractional decimal digits of `0 ≤ x < 1`, up to `fuel` digits, stopping at 0. -/
def fracDigits (fuel : ℕ) (x : ℚ) : List Char :=
  match fuel with
  | 0 => []
  | fuel + 1 =>
      if x = 0 then []
      else
        Char.ofNat (48 + (Int.floor (x * 10)).toNat % 10) ::
          fracDigits fuel (x * 10 - Int.floor (x * 10))

/-- JS `ToString` applied to a (finite) number.  JS prints the shortest decimal
that round-trips through binary64; the exact-rational model prints the exact
integer part and up to 20 fractional digits of the exact value. -/
def jsNumToString (q : ℚ) : String :=
  let sign := if q < 0 then "-" else ""
  let aq := |q|
  let ip := (Int.floor aq).toNat
  let fr := aq - Int.floor aq
  sign ++ (⟨natDigits ip⟩ : String) ++
    (if fr = 0 then "" else "." ++ (⟨fracDigits 20 fr⟩ : String))

/-- Insert a thousands separator after every three characters of a *reversed*
digit string. -/
def groupThousandsRev (l : List Char) : List Char :=
  if h : 3 < l.length then l.take 3 ++ [','] ++ groupThousandsRev (l.drop 3)
  else l
termination_by l.length
decreasing_by
  simp only [List.length_drop]
  omega

/-- `formatMoney` (src/fillData.js:124): `toLocaleString("en-AU", currency AUD,
minimumFractionDigits 2)`, i.e. `-` sign, `$`, thousands-separated dollars, and
exactly two cent digits.  Rounding to cents is modelled as round-half-up; the
`Number.isFinite` fallback is vacuous in the exact-rational model, and the
`try/catch` fallback branch is unreachable. -/
def formatMoney (n : ℚ) : String :=
  let safe := n
  let sign := if safe < 0 then "-" else ""
  let cents : ℕ := (Int.floor (|safe| * 100 + 1/2)).toNat
  let whole := cents / 100
  let fr := cents % 100
  sign ++ "$" ++ (⟨(groupThousandsRev (natDigits whole).reverse).reverse⟩ : String) ++
    "." ++ (⟨[Char.ofNat (48 + fr / 10), Char.ofNat (48 + fr % 10)]⟩ : String)

/-- JS `String(v)` on the JVal universe (template-literal interpolation and
object-key coercion; `null` and `undefined` are conflated to `"null"`). -/
def jvalToString : JVal → String
  | .num q => jsNumToString q
  | .str s => s
  | .nul => "null"
  | .nan => "NaN"
  | .inf => "Infinity"
  | .ninf => "-Infinity"

/-! ## Data model — spec §3, src/fillData.js

Fields that the code reads through `?.` / `??` are modelled as `Option`s
(`none` = absent/`null`); loosely-typed numeric-ish fields are `JVal`. -/

/-- A service entry (spec §3 `Service`). -/
structure Service where
  id : JVal
  type : String
  price : JVal
  quantity : JVal
  chutes : JVal
  levels : JVal
  area_label : Option String
  equipment : Option String
  equipment_label : Option String
  bin_size : Option String
deriving DecidableEq

/-- A building (spec §3 `Building`); the `services` array may be absent. -/
structure Building where
  id : JVal
  name : Option String
  services : Option (List Service)
deriving DecidableEq

/-- A site (spec §3 `Site`); the `buildings` array may be absent. -/
structure Site where
  site_name : Option String
  simpro_site_id : JVal
  buildings : Option (List Building)
deriving DecidableEq

/-- The six per-category frequency selections (spec §3 `FrequencySelection`);
`none` = `null`/absent. -/
structure Frequencies where
  chuteCleaningFrequency : Option String
  equipmentMaintenanceFrequency : Option String
  selfClosingHopperDoorInspectionFrequency : Option String
  wasteRoomCleaningFrequency : Option String
  binCleaningFrequency : Option String
  odourControlFrequency : Option String
deriving DecidableEq

/-- `odourControlUnits`: a JS object keyed by service id, modelled as an
association list (string key → value), first binding wins as in JS. -/
abbrev UnitsMap := List (String × JVal)

/-- `x || null` on an optional string: `""`/`null` collapse to `null`
(used for `building_name: b?.name || null`). -/
def jsOrNull (o : Option String) : Option String :=
  match o with
  | some s => if s = "" then none else some s
  | none => none

/-- A service as returned by `getServices`: the original fields plus the
site/building metadata spread in (src/fillData.js:220–226). -/
structure SService extends Service where
  site_name : String
  site_id : JVal
  building_id : JVal
  building_name : Option String
deriving DecidableEq

/-- The annotation `{ site_name: …, site_id: …, building_id: …, building_name: …, ...s }`
performed by `getServices` for one matched service. -/
def annotateService (site : Site) (b : Building) (s : Service) : SService :=
  { s with
    site_name := site.site_name.getD ""
    site_id := site.simpro_site_id
    building_id := b.id
    building_name := jsOrNull b.name }

/-- Result shape of `getServices`: `{ type, items }`. -/
structure ServiceGroup where
  type : String
  items : List SService
deriving DecidableEq

/-- `getServices` (src/fillData.js:214): flatten sites → buildings → services,
keep the ones whose `type` matches, annotate with site/building metadata.
A non-array `sites` argument is `none`; a falsy (empty) `type` short-circuits
to an empty item list. -/
def getServices (sites? : Option (List Site)) (type : String) : ServiceGroup :=
  match sites? with
  | none => { type := type, items := [] }
  | some sites =>
      if type = "" then { type := type, items := [] }
      else
        { type := type
          items := sites.flatMap fun site =>
            (site.buildings.getD []).flatMap fun b =>
              ((b.services.getD []).filter (fun s => s.type = type)).map
                (annotateService site b) }

/-! ## Annualized cost functions — src/fillData.js lines 187–203 -/

/-- `getServiceAnualCost` (src/fillData.js:187): Σ price × multiplier.
(The `!Array.isArray(services)` guard is vacuous here: the argument is typed.) -/
def getServiceAnualCost (services : List SService) (frequency : Option String) : ℚ :=
  let mult := frequencyToMultiplier frequency
  if mult = 0 ∨ services = [] then 0
  else services.foldl (fun acc s => acc + getNumber s.price * mult) 0

/-- `getServiceAnualChuteCost` (src/fillData.js:193): Σ price × multiplier × chutes. -/
def getServiceAnualChuteCost (services : List SService) (frequency : Option String) : ℚ :=
  let mult := frequencyToMultiplier frequency
  if mult = 0 ∨ services = [] then 0
  else services.foldl (fun acc s => acc + getNumber s.price * mult * getNumber s.chutes) 0

/-- `getServiceAnualEquipmentCost` (src/fillData.js:199): Σ price × multiplier × quantity. -/
def getServiceAnualEquipmentCost (services : List SService) (frequency : Option String) : ℚ :=
  let mult := frequencyToMultiplier frequency
  if mult = 0 ∨ services = [] then 0
  else services.foldl (fun acc s => acc + getNumber s.price * mult * getNumber s.quantity) 0

/-! ## `computeGrandTotal` — src/fillData.js lines 247–318

The single destructured parameter object is modelled as positional arguments;
`getDiscount` has JS-number domain `Option ℚ` (see `getDiscountDefault`).
The body is split into named pieces (`gtChuteAnnual`, …, `gtSubtotal`,
`gtServiceCount`, `gtDiscountAmt`) mirroring its `let` bindings. -/

/-- Object-key coercion `String(v)` used by `odourControlUnits?.[r?.id]`. -/
def jvalKey (v : JVal) : String := jvalToString v

/-- `odourControlUnits?.[r?.id] ?? 0` (src/fillData.js:289). -/
def unitsLookup (units : UnitsMap) (id : JVal) : JVal :=
  match List.lookup (jvalKey id) units with
  | some v => v
  | none => .num 0

/-- `const chuteAnnual = getServiceAnualChuteCost(chute.items, chuteCleaningFrequency)`. -/
def gtChuteAnnual (sites : List Site) (fs : Frequencies) : ℚ :=
  getServiceAnualChuteCost (getServices (some sites) "chute_cleaning").items
    fs.chuteCleaningFrequency

/-- `const equipAnnual = getServiceAnualEquipmentCost(equip.items, equipmentMaintenanceFrequency)`. -/
def gtEquipAnnual (sites : List Site) (fs : Frequencies) : ℚ :=
  getServiceAnualEquipmentCost (getServices (some sites) "equipment_maintenance").items
    fs.equipmentMaintenanceFrequency

/-- `const hopperAnnual = getServiceAnualChuteCost(hopper.items, selfClosingHopperDoorInspectionFrequency)`. -/
def gtHopperAnnual (sites : List Site) (fs : Frequencies) : ℚ :=
  getServiceAnualChuteCost (getServices (some sites) "hopper_door_inspection").items
    fs.selfClosingHopperDoorInspectionFrequency

/-- `const wasteAnnual = getServiceAnualCost(waste.items, wasteRoomCleaningFrequency)`. -/
def gtWasteAnnual (sites : List Site) (fs : Frequencies) : ℚ :=
  getServiceAnualCost (getServices (some sites) "waste_room_pressure_clean").items
    fs.wasteRoomCleaningFrequency

/-- `const binAnnual = getServiceAnualCost(bin.items, binCleaningFrequency)`. -/
def gtBinAnnual (sites : List Site) (fs : Frequencies) : ℚ :=
  getServiceAnualCost (getServices (some sites) "bin_cleaning").items
    fs.binCleaningFrequency

/-- The odour-control annual cost (src/fillData.js:286–292):
`odourMult ? Σ qty × price × odourMult : 0`. -/
def gtOdourAnnual (sites : List Site) (fs : Frequencies) (units : UnitsMap) : ℚ :=
  let odourMult := frequencyToMultiplier fs.odourControlFrequency
  if odourMult = 0 then 0
  else
    (getServices (some sites) "odour_control").items.foldl
      (fun acc r =>
        acc + getNumber (unitsLookup units r.id) * getNumber r.price * odourMult) 0

/-- `subtotal` (src/fillData.js:294): the six category annual costs summed. -/
def gtSubtotal (sites : List Site) (fs : Frequencies) (units : UnitsMap) : ℚ :=
  gtChuteAnnual sites fs + gtEquipAnnual sites fs + gtHopperAnnual sites fs +
  gtWasteAnnual sites fs + gtBinAnnual sites fs + gtOdourAnnual sites fs units

/-- The selection predicate of `serviceCount` (src/fillData.js:309–310):
`f != null && String(f).trim() !== "" && String(f).trim() !== "none"`
(note: no lowercasing here, unlike `frequencyToMultiplier`). -/
def freqSelected (f : Option String) : Bool :=
  match f with
  | none => false
  | some s => jsTrim s ≠ "" && jsTrim s ≠ "none"

/-- The six frequencies in the order `serviceCount` lists them. -/
def freqList (fs : Frequencies) : List (Option String) :=
  [fs.chuteCleaningFrequency, fs.equipmentMaintenanceFrequency,
   fs.selfClosingHopperDoorInspectionFrequency, fs.wasteRoomCleaningFrequency,
   fs.binCleaningFrequency, fs.odourControlFrequency]

/-- `serviceCount` (src/fillData.js:302–311). -/
def gtServiceCount (fs : Frequencies) : ℕ :=
  ((freqList fs).filter freqSelected).length

/-- `Number(x) || 0` on a (finite) number: `0` stays `0`, anything else is
itself (the `NaN ↦ 0` case has no preimage in the exact-rational model). -/
def numOr0 (q : ℚ) : ℚ := if q = 0 then 0 else q

/-- `discountAmt` (src/fillData.js:313–315):
`discountPct && incentives ? subtotal * discountPct / 100 : 0`. -/
def gtDiscountAmt (sites : List Site) (fs : Frequencies) (units : UnitsMap)
    (getDiscount : Option ℚ → ℚ) (incentives : JVal) : ℚ :=
  let discountPct := numOr0 (getDiscount (some ((gtServiceCount fs : ℕ) : ℚ)))
  if discountPct ≠ 0 ∧ incentives.truthy then
    gtSubtotal sites fs units * discountPct / 100
  else 0

/-- `Math.max` on two (finite) numbers. -/
def jsMax (a b : ℚ) : ℚ := if b < a then a else b

/-- `computeGrandTotal` (src/fillData.js:247): `Math.max(0, subtotal - discountAmt)`. -/
def computeGrandTotal (sites : List Site) (frequencies : Frequencies) (units : UnitsMap)
    (getDiscount : Option ℚ → ℚ) (incentives : JVal) : ℚ :=
  jsMax 0 (gtSubtotal sites frequencies units -
           gtDiscountAmt sites frequencies units getDiscount incentives)

/-! ## Concrete inputs for scenario theorems -/

/-- Scenario A (spec §8): one chute-cleaning service priced 450.00 with 2 chutes. -/
def scenarioAService : Service :=
  { id := .str "svc-1", type := "chute_cleaning", price := .num 450,
    quantity := .nul, chutes := .num 2, levels := .num 10, area_label := none,
    equipment := none, equipment_label := none, bin_size := none }

/-- Scenario A site: a single site with a single building holding the one service. -/
def scenarioASite : Site :=
  { site_name := some "Example Site", simpro_site_id := .num 1,
    buildings := some [{ id := .num 10, name := some "Tower A",
                         services := some [scenarioAService] }] }

/-- Scenario A frequencies: chute cleaning "quarterly", all other categories null. -/
def scenarioAFreqs : Frequencies :=
  { chuteCleaningFrequency := some "quarterly", equipmentMaintenanceFrequency := none,
    selfClosingHopperDoorInspectionFrequency := none, wasteRoomCleaningFrequency := none,
    binCleaningFrequency := none, odourControlFrequency := none }



/-! ## Template replacement and small helpers — src/fillData.js lines 53–95 -/

/-- Whether `tok` occurs as a contiguous substring of `s`. -/
def hasSub (tok : List Char) : List Char → Bool
  | [] => tok.isPrefixOf []
  | c :: rest => tok.isPrefixOf (c :: rest) || hasSub tok rest

/-- Leftmost, non-overlapping replacement of every occurrence of a non-empty
`tok` by `v` (the semantics of `html.split(token).join(v)`). -/
def replCore (tok v : List Char) (s : List Char) : List Char :=
  if h : tok ≠ [] ∧ tok.isPrefixOf s then v ++ replCore tok v (s.drop tok.length)
  else
    match s with
    | [] => []
    | c :: rest => c :: replCore tok v rest
termination_by s.length
decreasing_by
  · have hpre : tok <+: s := List.isPrefixOf_iff_prefix.mp h.2
    have hlen : tok.length ≤ s.length := hpre.length_le
    have ht : 0 < tok.length := List.length_pos.mpr h.1
    simp only [List.length_drop]
    omega
  · simp

/-- `s.split(tok).join(v)` on character lists; an empty `tok` splits into single
characters (so `v` is interspersed between them), as in JS. -/
def jsReplaceAll (s tok v : List Char) : List Char :=
  if tok = [] then
    match s with
    | [] => []
    | c :: rest => c :: rest.flatMap (fun ch => v ++ [ch])
  else replCore tok v s

/-- `safeReplaceAll` (src/fillData.js:53): replace every occurrence of `token`
in `html` by `value` via `split`/`join`.  The non-string guards and the
`value == null` fallback are vacuous in the typed model (every call site passes
strings). -/
def safeReplaceAll (html token : String) (value : String) : String :=
  ⟨jsReplaceAll html.data token.data value.data⟩

/-- `safeJoin` (src/fillData.js:68): trim the parts, drop the falsy ones, join
with `sep` (`none` models an `undefined` element). -/
def safeJoin (parts : List (Option String)) (sep : String) : String :=
  String.intercalate sep
    ((parts.map (fun p => jsTrim (p.getD ""))).filter (fun s => s ≠ ""))

/-- Gregorian month length. -/
def daysInMonth (y m : ℕ) : ℕ :=
  if m = 2 then (if (y % 4 = 0 ∧ ¬ y % 100 = 0) ∨ y % 400 = 0 then 29 else 28)
  else if m = 4 ∨ m = 6 ∨ m = 9 ∨ m = 11 then 30 else 31

/-- Modelled from the spec: `parseDateAU` (§4.1).  The source `toDDMMYYYY`
(src/fillData.js:87) delegates to the external date-fns library (`parseISO`,
`isValid`, `format`), which is not part of this repository.  Modelled as: parse
a leading `YYYY-MM-DD` (optionally followed by a `T...` time part), check
calendar validity, and reformat as `DD/MM/YYYY`; empty/unparseable input gives
`""` and nothing ever raises. -/
def toDDMMYYYY (iso : String) : String :=
  match iso.data with
  | y1 :: y2 :: y3 :: y4 :: '-' :: m1 :: m2 :: '-' :: d1 :: d2 :: rest =>
      if ([y1, y2, y3, y4, m1, m2, d1, d2].all Char.isDigit) ∧
         (rest = [] ∨ rest.head? = some 'T') then
        let y := digitsToNat [y1, y2, y3, y4]
        let m := digitsToNat [m1, m2]
        let d := digitsToNat [d1, d2]
        if 1 ≤ m ∧ m ≤ 12 ∧ 1 ≤ d ∧ d ≤ daysInMonth y m then
          ⟨[d1, d2, '/', m1, m2, '/', y1, y2, y3, y4]⟩
        else ""
      else ""
  | _ => ""

/-! ## Presentation constants — src/fillData.js lines 15–20.
`TODAY_AU` is computed from the wall clock at module load; it is passed to
`fillData` as an explicit `todayAU` argument in this model. -/

/-- `IMAGE_ZONE_PX` constant. -/
def IMAGE_ZONE_PX : ℚ := 160

/-- `BOX_PX` constant. -/
def BOX_PX : ℚ := 12

/-- `BORDER` constant. -/
def BORDER : String := "black"

/-- `STROKE` constant. -/
def STROKE : String := "black"

/-- `STROKE_W` constant. -/
def STROKE_W : ℚ := 2


/-! ## HTML section builders — src/fillData.js lines 331–1104.

The template literals are transliterated with their markup, attributes,
conditionals and data dependencies intact; insignificant indentation/newlines
inside the HTML strings are not reproduced character-for-character. -/

/-- `v ?? ""` for a loosely-typed field used in a template. -/
def jvalOrEmptyStr (v : JVal) : JVal :=
  match v with
  | .nul => .str ""
  | v => v

/-- Collapse every whitespace run to a single `-` (the `replace(/\s+/g, "-")`). -/
def wsRunsToDash : List Char → List Char
  | [] => []
  | c :: rest =>
      if jsWhitespaceChar c then '-' :: wsRunsToDash (rest.dropWhile jsWhitespaceChar)
      else c :: wsRunsToDash rest
termination_by l => l.length
decreasing_by
  · have h1 : (rest.dropWhile jsWhitespaceChar).length ≤ rest.length :=
      (List.dropWhile_sublist jsWhitespaceChar).length_le
    simp only [List.length_cons]
    omega
  · simp

/-- The `norm` helper of `frequencyChecklistHTML` (src/fillData.js:386):
trim, lowercase, whitespace runs to `-`. -/
def normFreqKey (s : Option String) : String :=
  ⟨wsRunsToDash (jsLower (jsTrim (s.getD ""))).data⟩

/-- The `hide`/`visible` options of `frequencyChecklistHTML`. -/
structure ChecklistOpts where
  hide : Option (List String) := none
  visible : Option (List String) := none

/-- The `box` closure of `frequencyChecklistHTML`: a bordered square, crossed
when checked. -/
def checkboxHTML (checked : Bool) : String :=
  "<span style=\"width:" ++ jsNumToString BOX_PX ++ "px; height:" ++
    jsNumToString BOX_PX ++ "px; border:1px solid " ++ BORDER ++
    "; display:inline-block; position:relative;\">" ++
  (if checked then
    "<svg viewBox=\"0 0 100 100\" preserveAspectRatio=\"none\" style=\"position:absolute; inset:0; width:100%; height:100%; pointer-events:none;\">" ++
    "<line x1=\"0\" y1=\"0\" x2=\"100\" y2=\"100\" stroke=\"" ++ STROKE ++
      "\" stroke-width=\"" ++ jsNumToString (STROKE_W / BOX_PX * 100) ++ "\"/>" ++
    "<line x1=\"100\" y1=\"0\" x2=\"0\" y2=\"100\" stroke=\"" ++ STROKE ++
      "\" stroke-width=\"" ++ jsNumToString (STROKE_W / BOX_PX * 100) ++ "\"/>" ++
    "</svg>"
   else "") ++
  "</span>"

/-- `frequencyChecklistHTML` (src/fillData.js:385): the Quarterly / 6 Monthly /
Yearly checklist column with `visible`/`hide` filtering. -/
def frequencyChecklistHTML (frequency : Option String) (opts : ChecklistOpts) : String :=
  let f := normFreqKey frequency
  let isQuarterly := f = "quarterly"
  let isSixMonthly := f = "six-monthly" ∨ f = "6monthly"
  let isYearly := f = "yearly"
  let items : List (String × String × Bool) :=
    [("quarterly", "Quarterly", isQuarterly),
     ("six-monthly", "6 Monthly", isSixMonthly),
     ("yearly", "Yearly", isYearly)]
  let hideFiltered :=
    match opts.hide with
    | some hd =>
        if hd ≠ [] then
          items.filter (fun it => !((hd.map (fun v => normFreqKey (some v))).contains it.1))
        else items
    | none => items
  let filtered :=
    match opts.visible with
    | some vis =>
        if vis ≠ [] then
          items.filter (fun it => (vis.map (fun v => normFreqKey (some v))).contains it.1)
        else hideFiltered
    | none => hideFiltered
  if filtered = [] then
    "<div style=\"width:20%; min-height:45px; padding-top:5px; display:flex; flex-direction:column; padding-bottom:20px; gap:10px;\"></div>"
  else
    let rows := String.join (filtered.map (fun it =>
      "<div style=\"padding-left:10px;display:flex;align-items:center;gap:5px;\">" ++
        checkboxHTML it.2.2 ++ it.2.1 ++ "</div>"))
    "<div style=\"width:20%; min-height:45px; padding-top:5px; display:flex; flex-direction:column; padding-bottom:20px; gap:10px;\">" ++
      rows ++ "</div>"

/-- `getSitesNames` (src/fillData.js:331): one site name per building. -/
def getSitesNames (sites : List Site) : List String :=
  sites.flatMap fun site =>
    (site.buildings.getD []).map fun _ => site.site_name.getD ""

/-- `getCoverPageSitesNames` (src/fillData.js:345). -/
def getCoverPageSitesNames (sites : List Site) : String :=
  let siteNames := String.join (((getSitesNames sites).filter (fun s => s ≠ "")).map
    (fun site => "<div style=\"font-size:14px;\">" ++ site ++ "</div>"))
  "<div style=\"display:flex; flex-direction:column; gap:5px;\">" ++ siteNames ++ "</div>"

/-- `getChuteCleaningServices` (src/fillData.js:370). -/
def getChuteCleaningServices (sites : List Site) (type : String) : List SService :=
  (getServices (some sites) type).items

/-- The ` - Building` suffix shown when `building_name` is truthy. -/
def buildingSuffix (bn : Option String) : String :=
  match bn with
  | some n => if n ≠ "" then " - " ++ n else ""
  | none => ""

/-- One row of the chute-cleaning (and hopper-door) tables. -/
def chuteRowHTML (isLast : Bool) (service : SService) : String :=
  let price := getNumber service.price
  let levels := jvalOrEmptyStr service.levels
  let siteName := service.site_name
  let bName := buildingSuffix service.building_name
  "<div class=\"avoid-break\" style=\"" ++
    (if isLast then "border-bottom:none;" else "border-bottom:1px solid black;") ++
    " padding:10px; display:flex; flex-direction:column; align-items:center; gap:10px;\">" ++
  "<div><b>" ++ siteName ++ bName ++ "</b></div>" ++
  "<div>" ++ (if price ≠ 0 then "$" ++ jsNumToString price ++ " + GST (Per Chute)" else "") ++
    "</div>" ++
  "<div><b>" ++
    (if levels.truthy then "(Up to " ++ jvalToString levels ++ " Levels)" else "") ++
    "</b></div>" ++
  "<div><b>*Any Extra Levels will be invoiced <br/> accordingly</b></div>" ++
  "</div>"

/-- `getChuteCleaningContent` (src/fillData.js:467). -/
def getChuteCleaningContent (sites : List Site) (frequency : Option String) : String :=
  if frequency = none then ""
  else
    let services := getChuteCleaningServices sites "chute_cleaning"
    if services = [] then ""
    else
      let items := String.join (services.enum.map (fun iv =>
        chuteRowHTML (iv.1 = services.length - 1) iv.2))
      "<div class=\"service-section\" style=\"border:1px solid black; border-top:none;\">" ++
      "<div style=\"width:30%; text-align:center; border-right:1px solid black; min-height:45px; padding-top:5px;\"><b>Waste Chute Cleaning</b></div>" ++
      "<div style=\"width:15%; text-align:center; border-right:1px solid black; min-height:45px; padding-top:5px;\">Quarterly</div>" ++
      "<div style=\"width:35%; text-align:center; min-height:45px; border-right:1px solid black;\">" ++
        items ++ "</div>" ++
      frequencyChecklistHTML frequency
        { visible := some ["quarterly", "yearly", "six-monthly"] } ++
      "</div>"


/-- `x ?? d` on a loosely-typed value. -/
def jvalOr (v d : JVal) : JVal :=
  match v with
  | .nul => d
  | v => v

/-- JS truthiness of an optional string. -/
def optTruthy (o : Option String) : Bool :=
  match o with
  | some s => s ≠ ""
  | none => false

/-- Unsigned complete decimal literal. -/
def parseUnsignedFull (l : List Char) : Option ℚ :=
  let intD := l.takeWhile Char.isDigit
  let rest := l.dropWhile Char.isDigit
  match rest with
  | [] => if intD = [] then none else some (digitsToNat intD)
  | '.' :: r2 =>
      let fracD := r2.takeWhile Char.isDigit
      let rest2 := r2.dropWhile Char.isDigit
      if rest2 = [] ∧ ¬(intD = [] ∧ fracD = []) then
        some ((digitsToNat intD : ℚ) + (digitsToNat fracD : ℚ) / 10 ^ fracD.length)
      else none
  | _ => none

/-- A complete decimal literal (sign, digits, optional fraction); `none` when
the whole input is not such a literal. -/
def parseFullDecimal (l : List Char) : Option ℚ :=
  match l with
  | '-' :: r => (parseUnsignedFull r).map (fun q => -q)
  | '+' :: r => parseUnsignedFull r
  | _ => parseUnsignedFull l

/-- JS `Number(v)` coercion; `none` models a non-finite result (`NaN`;
`±Infinity` inputs are conflated with it — this coercion only feeds the
presentation-only equipment summary).  String coercion: trim, empty → 0,
otherwise the string must be a complete decimal literal (exponent and hex
literal forms are not modelled). -/
def jsNumberCoerce (v : JVal) : Option ℚ :=
  match v with
  | .num q => some q
  | .nul => some 0
  | .nan => none
  | .inf => none
  | .ninf => none
  | .str s =>
      let t := trimChars s.data
      if t = [] then some 0 else parseFullDecimal t

/-- `NaN`-propagating addition of JS numbers. -/
def jsAddOpt (a b : Option ℚ) : Option ℚ :=
  match a, b with
  | some x, some y => some (x + y)
  | _, _ => none

/-- `if (priceNum > entry.maxPrice)` update, `none` standing for the initial
`-Infinity`. -/
def maxPriceUpd (cur : Option ℚ) (p : ℚ) : Option ℚ :=
  match cur with
  | none => some p
  | some m => if m < p then some p else some m

/-- An aggregation entry of `summarizeEquipmentMaintenanceByBuilding`. -/
structure EquipAgg where
  equipment : String
  equipmentLabel : Option String
  count : Option ℚ
  maxPrice : Option ℚ
deriving DecidableEq

/-- Update the entry with the given key of an association list in place. -/
def assocUpdate (k : String) (f : EquipAgg → EquipAgg) :
    List (String × EquipAgg) → List (String × EquipAgg)
  | [] => []
  | (k2, e) :: rest =>
      if k2 = k then (k2, f e) :: rest else (k2, e) :: assocUpdate k f rest

/-- One `equipment_maintenance` service folded into the aggregation object
(insertion-ordered association list, as JS object keys). -/
def aggStep (s : Service) (agg : List (String × EquipAgg)) : List (String × EquipAgg) :=
  let ek := if optTruthy s.equipment then s.equipment.getD "" else "unknown-equipment"
  let label := s.equipment_label
  let priceNum := getNumber s.price
  let agg1 :=
    if (List.lookup ek agg).isSome then agg
    else agg ++ [(ek, { equipment := ek, equipmentLabel := label,
                        count := some 0, maxPrice := none })]
  assocUpdate ek (fun e =>
    { e with
      count := jsAddOpt e.count (jsNumberCoerce (jvalOr s.quantity (.num 0)))
      maxPrice := maxPriceUpd e.maxPrice priceNum
      equipmentLabel :=
        if ¬ optTruthy e.equipmentLabel ∧ optTruthy label then label
        else e.equipmentLabel }) agg1

/-- One line of the per-building equipment summary. -/
structure EquipLine where
  equipment : String
  equipmentLabel : Option String
  count : Option ℚ
  maxPrice : ℚ
deriving DecidableEq

/-- The per-building summary row. -/
structure BuildingEquip where
  building_name : String
  equipment : List EquipLine
deriving DecidableEq

/-- `Number(x.toFixed(2))`: round to two decimals, half away from zero
(binary64 artifacts of `toFixed` are not modelled). -/
def roundTo2 (x : ℚ) : ℚ :=
  if 0 ≤ x then (Int.floor (x * 100 + 1/2) : ℚ) / 100
  else -((Int.floor (-x * 100 + 1/2) : ℚ) / 100)

/-- Stable insertion into a sorted list (new element goes after equal ones). -/
def insertSorted (le : α → α → Bool) (x : α) : List α → List α
  | [] => [x]
  | y :: ys => if le y x then y :: insertSorted le x ys else x :: y :: ys

/-- Stable comparator sort (JS `Array.prototype.sort` is stable).
`String.prototype.localeCompare` depends on the runtime ICU collation; it is
modelled as code-point comparison. -/
def sortByLe (le : α → α → Bool) (l : List α) : List α :=
  l.foldl (fun acc x => insertSorted le x acc) []

/-- `summarizeEquipmentMaintenanceByBuilding` (src/fillData.js:528). -/
def summarizeEquipmentMaintenanceByBuilding (sites : List Site) : List BuildingEquip :=
  let results := sites.flatMap fun site =>
    let sn0 := site.site_name.getD ""
    let siteName := jsTrim (if sn0 = "" then "Unknown Site" else sn0)
    (site.buildings.getD []).map fun b =>
      let rawBName := jsTrim (b.name.getD "")
      let buildingDisplay :=
        if rawBName ≠ "" then siteName ++ " - " ++ rawBName else siteName
      let agg := ((b.services.getD []).filter
        (fun s => s.type = "equipment_maintenance")).foldl (fun acc s => aggStep s acc) []
      let equipment := sortByLe (fun a b => a.equipment ≤ b.equipment)
        ((agg.map Prod.snd).map (fun e =>
          { equipment := e.equipment
            equipmentLabel := jsOrNull e.equipmentLabel
            count := e.count
            maxPrice := roundTo2 (e.maxPrice.getD 0) }))
      ({ building_name := buildingDisplay, equipment := equipment } : BuildingEquip)
  sortByLe (fun a b => a.building_name ≤ b.building_name) results


/-- `${count}` rendering of a possibly-NaN JS number. -/
def optNumToString (o : Option ℚ) : String :=
  match o with
  | some q => jsNumToString q
  | none => "NaN"

/-- One equipment line inside `getEquipmentContentGroupBySite`. -/
def equipLineHTML (e : EquipLine) : String :=
  let label :=
    if optTruthy e.equipmentLabel then e.equipmentLabel.getD ""
    else if e.equipment ≠ "" then e.equipment
    else "Equipment"
  let count := e.count
  let maxPrice := numOr0 e.maxPrice
  "<div>" ++ optNumToString count ++ " x <b>" ++ label ++ "</b><div>" ++
    formatMoney maxPrice ++ " + GST (Per System)</div></div>"

/-- `getEquipmentContentGroupBySite` (src/fillData.js:592). -/
def getEquipmentContentGroupBySite (sites : List Site) (frequency : Option String) :
    String :=
  if frequency = none then ""
  else
    let services := summarizeEquipmentMaintenanceByBuilding sites
    let items := String.join (services.enum.map (fun iv =>
      let isLast := iv.1 = services.length - 1
      let buildingName := iv.2.building_name
      let equipmentLines := String.join (iv.2.equipment.map equipLineHTML)
      "<div class=\"avoid-break\" style=\"" ++
        (if isLast then "border-bottom:none;" else "border-bottom:1px solid black;") ++
        " padding:10px; display:flex; flex-direction:column; align-items:center; gap:6px;\">" ++
      "<div><b>" ++ buildingName ++ "</b></div>" ++
      "<div style=\"text-align:center; display:flex; flex-direction:column; gap:6px;\">" ++
        equipmentLines ++ "</div></div>"))
    "<div class=\"service-section\" style=\"border:1px solid black;\">" ++
    "<div style=\"width:30%; text-align:center; border-right:1px solid black; min-height:45px; padding-top:5px;\"><b>Equipment Preventative<br/>Maintenance</b></div>" ++
    "<div style=\"width:15%; text-align:center; border-right:1px solid black; min-height:45px; padding-top:5px;\">Quarterly</div>" ++
    "<div style=\"width:35%; text-align:center; min-height:45px; border-right:1px solid black;\">" ++
      items ++ "</div>" ++
    frequencyChecklistHTML frequency
      { visible := some ["quarterly", "yearly", "six-monthly"] } ++
    "</div>"

/-- `getDoorInspectionContent` (src/fillData.js:720); its rows have the same
shape as the chute-cleaning rows. -/
def getDoorInspectionContent (sites : List Site) (frequency : Option String) : String :=
  if frequency = none then ""
  else
    let services := getChuteCleaningServices sites "hopper_door_inspection"
    if services = [] then ""
    else
      let items := String.join (services.enum.map (fun iv =>
        chuteRowHTML (iv.1 = services.length - 1) iv.2))
      "<div class=\"service-section\" style=\"border:1px solid black;\">" ++
      "<div style=\"width:30%; text-align:center; border-right:1px solid black; min-height:45px; padding-top:5px;\"><b>Self-Closing Hopper Door<br/>Inspection</b></div>" ++
      "<div style=\"width:15%; text-align:center; border-right:1px solid black; min-height:45px; padding-top:5px;\">Quarterly</div>" ++
      "<div style=\"width:35%; text-align:center; min-height:45px; border-right:1px solid black;\">" ++
        items ++ "</div>" ++
      frequencyChecklistHTML frequency
        { visible := some ["quarterly", "yearly", "six-monthly"] } ++
      "</div>"

/-- `getWasteRoomCleanContent` (src/fillData.js:780). -/
def getWasteRoomCleanContent (sites : List Site) (frequency : Option String) : String :=
  if frequency = none then ""
  else
    let services := getChuteCleaningServices sites "waste_room_pressure_clean"
    if services = [] then ""
    else
      let items := String.join (services.enum.map (fun iv =>
        let isLast := iv.1 = services.length - 1
        let service := iv.2
        let price := getNumber service.price
        let areaLabel := service.area_label.getD ""
        let siteName := service.site_name
        let bName := buildingSuffix service.building_name
        "<div class=\"avoid-break\" style=\"" ++
          (if isLast then "border-bottom:none;" else "border-bottom:1px solid black;") ++
          " padding:10px; display:flex; flex-direction:column; align-items:center; gap:10px;\">" ++
        "<div><b>" ++ siteName ++ bName ++ "</b></div>" ++
        "<div>" ++ (if price ≠ 0 then "$" ++ jsNumToString price ++ " + GST" else "") ++
          "</div>" ++
        "<div><b>" ++ areaLabel ++ "</b></div>" ++
        "<div><b>(Per Waste Room)</b></div>" ++
        "</div>"))
      "<div class=\"service-section\" style=\"border:1px solid black;\">" ++
      "<div style=\"width:30%; text-align:center; border-right:1px solid black; min-height:45px; padding-top:5px;\"><b>Waste Room High Pressure<br/>Clean</b></div>" ++
      "<div style=\"width:15%; text-align:center; border-right:1px solid black; min-height:45px; padding-top:5px;\">Quarterly</div>" ++
      "<div style=\"width:35%; text-align:center; min-height:45px; border-right:1px solid black;\">" ++
        items ++ "</div>" ++
      frequencyChecklistHTML frequency
        { visible := some ["quarterly", "yearly", "six-monthly"] } ++
      "</div>"

/-- `getOdourControlContent` (src/fillData.js:840). -/
def getOdourControlContent (sites : List Site) (frequency : Option String)
    (units : UnitsMap) : String :=
  if frequency = none then ""
  else
    let services := getChuteCleaningServices sites "odour_control"
    if services = [] then ""
    else
      let items := String.join (services.enum.map (fun iv =>
        let isLast := iv.1 = services.length - 1
        let service := iv.2
        let price := getNumber service.price
        let siteName := service.site_name
        let bName := buildingSuffix service.building_name
        let unit := getNumber (match List.lookup (jvalKey service.id) units with
          | some v => v
          | none => .str "")
        "<div class=\"avoid-break\" style=\"" ++
          (if isLast then "border-bottom:none;" else "border-bottom:1px solid black;") ++
          " padding:10px; display:flex; flex-direction:column; align-items:center; gap:10px;\">" ++
        "<div><b>" ++ siteName ++ bName ++ "</b></div>" ++
        "<div>" ++ (if price ≠ 0 then "$" ++ jsNumToString price ++ " + GST" else "") ++
          "</div>" ++
        "<div>(Per Unit, No Installation cost. Min 2 year contract)</div>" ++
        "<div><b>*240V 10AMP Outlet Must be Supplied in Waste Room</b></div>" ++
        "<div style=\"display:flex; flex-direction:row; align-items:center; gap:10px;\">" ++
        "<div style=\"width:55px; height:30px; border:1px solid black; display: flex; justify-content: center; align-items: center; font-weight: bold;\">" ++
          (if frequency = some "none" then ""
           else if unit ≠ 0 then jsNumToString unit else "") ++
        "</div>" ++
        "<div>UNITS</div>" ++
        "</div></div>"))
      "<div class=\"service-section\" style=\"border:1px solid black;\">" ++
      "<div style=\"width:30%; text-align:center; border-right:1px solid black; min-height:45px; padding-top:5px;\"><b>EF Neutraliser <br/><br/>(Odour Management System)</b></div>" ++
      "<div style=\"width:15%; text-align:center; border-right:1px solid black; min-height:45px; padding-top:5px;\">Quarterly</div>" ++
      "<div style=\"width:35%; text-align:center; min-height:45px; border-right:1px solid black;\">" ++
        items ++ "</div>" ++
      frequencyChecklistHTML frequency { visible := some ["quarterly"] } ++
      "</div>"

/-- `getWasteBinCleanContent` (src/fillData.js:903). -/
def getWasteBinCleanContent (sites : List Site) (frequency : Option String) : String :=
  if frequency = none then ""
  else
    let services := getChuteCleaningServices sites "bin_cleaning"
    if services = [] then ""
    else
      let items := String.join (services.enum.map (fun iv =>
        let isLast := iv.1 = services.length - 1
        let service := iv.2
        let price := getNumber service.price
        let siteName := service.site_name
        let bName := buildingSuffix service.building_name
        "<div class=\"avoid-break\" style=\"" ++
          (if isLast then "border-bottom:none;" else "border-bottom:1px solid black;") ++
          " padding:10px; display:flex; flex-direction:column; align-items:center; gap:10px;\">" ++
        "<div><b>" ++ siteName ++ bName ++ "</b></div>" ++
        "<div>" ++ (if price ≠ 0 then "$" ++ jsNumToString price ++ " + GST" else "") ++
          "</div>" ++
        "</div>"))
      "<div class=\"service-section\" style=\"border:1px solid black;\">" ++
      "<div style=\"width:30%; text-align:center; border-right:1px solid black; min-height:45px; padding-top:5px;\"><b>Wheelie Bin Cleaning</b></div>" ++
      "<div style=\"width:15%; text-align:center; border-right:1px solid black; min-height:45px; padding-top:5px;\">Quarterly</div>" ++
      "<div style=\"width:35%; text-align:center; min-height:45px; border-right:1px solid black;\">" ++
        items ++ "</div>" ++
      frequencyChecklistHTML frequency
        { visible := some ["quarterly", "yearly", "six-monthly"] } ++
      "</div>"

/-- The `isSelected` normalization of `getIncentivesContent` (trim + lowercase,
unlike the `serviceCount` filter of `computeGrandTotal`). -/
def isSelectedFreq (v : Option String) : Bool :=
  let n := jsLower (jsTrim (v.getD ""))
  n ≠ "" && n ≠ "none"

/-- The `rowTemplate` of `getIncentivesContent`. -/
def incentiveRowHTML (tierText incentiveText : String) : String :=
  "<div class=\"section\" style=\"border:1px solid black; color:black; border-top:none; display:flex;\">" ++
  "<div style=\"width:30%; text-align:left; border-right:1px solid black; min-height:22px; padding-top:5px; padding-left:10px;\">" ++
    tierText ++ "</div>" ++
  "<div style=\"width:70%; text-align:left; min-height:22px; padding-top:5px; padding-left:10px;\">" ++
    incentiveText ++ "</div>" ++
  "</div>"

/-- `getIncentivesContent` (src/fillData.js:963): tier table for ≥ 3 selected
categories (3 → BASIC, 4–5 → ESSENTIAL, ≥ 6 → PREMIUM). -/
def getIncentivesContent (fs : Frequencies) : String :=
  let serviceCount := ((freqList fs).filter isSelectedFreq).length
  if serviceCount < 3 then ""
  else
    let tier :=
      if serviceCount = 3 then "BASIC"
      else if 3 < serviceCount ∧ serviceCount < 6 then "ESSENTIAL"
      else "PREMIUM"
    let incentives :=
      if serviceCount = 3 then
        ["Price Lock Guarantee (24 Months)",
         "Priority Response Within 8 Hours",
         "Priority Booking"]
      else if 3 < serviceCount ∧ serviceCount < 6 then
        ["Price Lock Guarantee (24 Months)",
         "Priority Response Within 8 Hours",
         "Priority Booking",
         "Flexible 21-Day Payment Terms",
         "10% Discounts on Parts",
         "5% Service Pricing Discounts"]
      else
        ["Price Lock Guarantee (24 Months)",
         "Priority Response Within 8 Hours",
         "Priority Booking",
         "Flexible 21-Day Payment Terms",
         "15% Discounts on Parts",
         "10% Service Pricing Discounts",
         "Complimentary Odour Control (First 3 Months)"]
    let tableHeader :=
      "<div class=\"section\" style=\"margin-top:40px;\"><div><u><b>INCENTIVES:</b></u></div></div>" ++
      "<div class=\"section\" style=\"margin-top:5px; border:1px solid black; background-color:#f5c644; color:white; display:flex;\">" ++
      "<div style=\"width:30%; text-align:center; border-right:1px solid black; min-height:22px; padding-top:5px; padding-left:10px;\"><b>TIER</b></div>" ++
      "<div style=\"width:70%; text-align:center; min-height:22px; padding-top:5px; padding-left:10px;\"><b>INCENTIVES</b></div>" ++
      "</div>"
    let rows := String.join (incentives.enum.map (fun iv =>
      incentiveRowHTML (if iv.1 = 0 then "<b>" ++ tier ++ "</b>" else "") iv.2))
    tableHeader ++ rows


/-! ## `fillData` — src/fillData.js lines 1120–1249 -/

/-- The `serviceAgreement` sub-object (spec §3 `Agreement`). -/
structure Agreement where
  start_date : Option String
  end_date : Option String
  sites : Option (List Site)
  incentives : JVal
  salesperson : Option String
deriving DecidableEq

/-- The data object handed to `fillData`. -/
structure AgreementData where
  companyName : Option String
  abn : Option String
  businessStreetAddress : Option String
  businessCity : Option String
  businessPostcode : Option String
  businessState : Option String
  accountEmail : Option String
  accountMobile : Option String
  accountPhone : Option String
  serviceAgreement : Option Agreement
  chuteCleaningFrequency : Option String
  equipmentMaintenanceFrequency : Option String
  selfClosingHopperDoorInspectionFrequency : Option String
  wasteRoomCleaningFrequency : Option String
  binCleaningFrequency : Option String
  odourControlFrequency : Option String
  odourControlUnits : Option UnitsMap
  signFullName : Option String
  trimmedDataURL : Option String
deriving DecidableEq

/-- The empty data object (`data ?? {}` fallback: every field absent). -/
def emptyAgreementData : AgreementData :=
  { companyName := none, abn := none, businessStreetAddress := none,
    businessCity := none, businessPostcode := none, businessState := none,
    accountEmail := none, accountMobile := none, accountPhone := none,
    serviceAgreement := none, chuteCleaningFrequency := none,
    equipmentMaintenanceFrequency := none,
    selfClosingHopperDoorInspectionFrequency := none,
    wasteRoomCleaningFrequency := none, binCleaningFrequency := none,
    odourControlFrequency := none, odourControlUnits := none,
    signFullName := none, trimmedDataURL := none }

/-- The `frequencies` object that `fillData` builds for `computeGrandTotal`
(src/fillData.js:1161–1169); `x ?? null` is the identity on optional fields. -/
def fillDataFrequencies (d : AgreementData) : Frequencies :=
  { chuteCleaningFrequency := d.chuteCleaningFrequency
    equipmentMaintenanceFrequency := d.equipmentMaintenanceFrequency
    selfClosingHopperDoorInspectionFrequency := d.selfClosingHopperDoorInspectionFrequency
    wasteRoomCleaningFrequency := d.wasteRoomCleaningFrequency
    binCleaningFrequency := d.binCleaningFrequency
    odourControlFrequency := d.odourControlFrequency }

/-- The `grand` value of `fillData` (src/fillData.js:1159–1173): the call to
`computeGrandTotal` with sites, frequencies, odour units, the default discount
rule and the agreement's incentives flag. -/
def fillDataGrand (d : AgreementData) : ℚ :=
  computeGrandTotal ((d.serviceAgreement.bind (fun a => a.sites)).getD [])
    (fillDataFrequencies d)
    (d.odourControlUnits.getD [])
    getDiscountDefault
    ((d.serviceAgreement.map (fun a : Agreement => a.incentives)).getD JVal.nul)

/-- `fillData` (src/fillData.js:1120).  Differences from the JS signature:
the `data` object is `Option AgreementData` (`data ?? {}`), and the module-level
`TODAY_AU` constant — wall-clock state captured at load time, hence not a pure
value — is passed in as the explicit argument `todayAU`. -/
def fillData (html : String) (data : Option AgreementData) (todayAU : String) : String :=
  let d := data.getD emptyAgreementData
  let companyName := d.companyName.getD ""
  let abn := d.abn.getD ""
  let address := safeJoin
    [d.businessStreetAddress, d.businessCity, d.businessPostcode, d.businessState,
     if optTruthy d.businessStreetAddress ∧ optTruthy d.businessCity ∧
        optTruthy d.businessPostcode ∧ optTruthy d.businessState
     then some "Australia" else some ""] ", "
  let accountsEmail := d.accountEmail.getD ""
  let phoneLine := safeJoin
    [(match d.accountMobile with
      | some m => if jsTrim m ≠ "" then some ("Mobile: " ++ jsTrim m) else none
      | none => none),
     (match d.accountPhone with
      | some p => if jsTrim p ≠ "" then some ("Phone: " ++ jsTrim p) else none
      | none => none)] " | "
  let startDate := toDDMMYYYY ((d.serviceAgreement.bind (fun a => a.start_date)).getD "")
  let endDate := toDDMMYYYY ((d.serviceAgreement.bind (fun a => a.end_date)).getD "")
  let grand := fillDataGrand d
  -- `grand === 0 || !grand ? "" : formatMoney(grand * 2)`; for a finite exact
  -- rational both disjuncts mean `grand = 0`
  let contractTotal := if grand = 0 then "" else formatMoney (grand * 2)
  let sites := (d.serviceAgreement.bind (fun a => a.sites)).getD []
  let servicesHTML :=
    getChuteCleaningContent sites d.chuteCleaningFrequency ++
    getEquipmentContentGroupBySite sites d.equipmentMaintenanceFrequency ++
    getDoorInspectionContent sites d.selfClosingHopperDoorInspectionFrequency ++
    getWasteRoomCleanContent sites d.wasteRoomCleaningFrequency ++
    getWasteBinCleanContent sites d.binCleaningFrequency ++
    getOdourControlContent sites d.odourControlFrequency (d.odourControlUnits.getD [])
  let siteNamesHTML := getCoverPageSitesNames sites
  let signName := d.signFullName.getD ""
  let trimmedDataURL := d.trimmedDataURL.getD ""
  let salesperson := (d.serviceAgreement.bind (fun a => a.salesperson)).getD ""
  let signatureHTML :=
    if trimmedDataURL ≠ "" then
      "<div style=\"height:" ++ jsNumToString IMAGE_ZONE_PX ++
        "px; display:flex; align-items:center; justify-content:flex-start;\">" ++
      "<img src=\"" ++ trimmedDataURL ++
        "\" alt=\"Signature\" style=\"display:block; max-height:100%; max-width:100%; height:auto; width:auto; object-fit:contain;\" />" ++
      "</div>"
    else "<div style=\"height:" ++ jsNumToString IMAGE_ZONE_PX ++ "px;\"></div>"
  let today := todayAU
  let incentivesHTML :=
    if ((d.serviceAgreement.map (fun a : Agreement => a.incentives)).getD JVal.nul).truthy then
      getIncentivesContent (fillDataFrequencies d)
    else ""
  let out := html
  let out := safeReplaceAll out "{COMPANY_NAME}" companyName
  let out := safeReplaceAll out "{ABN}" abn
  let out := safeReplaceAll out "{ADDRESS}" address
  let out := safeReplaceAll out "{ACCOUNTS_EMAILS}" accountsEmail
  let out := safeReplaceAll out "{ACCOUNT_PHONE}" phoneLine
  let out := safeReplaceAll out "{START_DATE}" startDate
  let out := safeReplaceAll out "{END_DATE}" endDate
  let out := safeReplaceAll out "{CONTRACT_TOTAL}" contractTotal
  let out := safeReplaceAll out "{SERVICE-CONTENT}" servicesHTML
  let out := safeReplaceAll out "{SITE_NAME}" siteNamesHTML
  let out := safeReplaceAll out "{NAME}" signName
  let out := safeReplaceAll out "{SIGNATURE}" signatureHTML
  let out := safeReplaceAll out "{DATE}" today
  let out := safeReplaceAll out "{SALESPERSON}" salesperson
  let out := safeReplaceAll out "{INCENTIVES-CONTENT}" incentivesHTML
  out

/-! ## Spec-side collector and category decomposition (for refinement claims) -/

/-- The Service Collector exactly as the spec words it (§4.2 `collect`):
walk every site → every building → every service, keep services whose `type`
matches, return each with the site/building metadata merged in, preserving
input order at every level, with missing arrays treated as empty.  This
definition follows the spec's words and is compared against the source's
`getServices`. -/
def collectSpec (sites : List Site) (ty : String) : List SService :=
  sites.flatMap fun site =>
    (site.buildings.getD []).flatMap fun b =>
      ((b.services.getD []).filter (fun s => s.type = ty)).map (annotateService site b)

/-- The six fixed service categories (spec glossary). -/
inductive Category where
  | chute
  | equip
  | hopper
  | waste
  | bin
  | odour
deriving DecidableEq

/-- The frequency selection belonging to a category. -/
def freqOf : Category → Frequencies → Option String
  | .chute, fs => fs.chuteCleaningFrequency
  | .equip, fs => fs.equipmentMaintenanceFrequency
  | .hopper, fs => fs.selfClosingHopperDoorInspectionFrequency
  | .waste, fs => fs.wasteRoomCleaningFrequency
  | .bin, fs => fs.binCleaningFrequency
  | .odour, fs => fs.odourControlFrequency

/-- The category's annual-cost term exactly as it occurs in `gtSubtotal`. -/
def catAnnual : Category → List Site → Frequencies → UnitsMap → ℚ
  | .chute, sites, fs, _ => gtChuteAnnual sites fs
  | .equip, sites, fs, _ => gtEquipAnnual sites fs
  | .hopper, sites, fs, _ => gtHopperAnnual sites fs
  | .waste, sites, fs, _ => gtWasteAnnual sites fs
  | .bin, sites, fs, _ => gtBinAnnual sites fs
  | .odour, sites, fs, units => gtOdourAnnual sites fs units

/-- `freqList` with the given category's entry removed (order preserved). -/
def freqListWithout : Category → Frequencies → List (Option String)
  | .chute, fs =>
      [fs.equipmentMaintenanceFrequency, fs.selfClosingHopperDoorInspectionFrequency,
       fs.wasteRoomCleaningFrequency, fs.binCleaningFrequency, fs.odourControlFrequency]
  | .equip, fs =>
      [fs.chuteCleaningFrequency, fs.selfClosingHopperDoorInspectionFrequency,
       fs.wasteRoomCleaningFrequency, fs.binCleaningFrequency, fs.odourControlFrequency]
  | .hopper, fs =>
      [fs.chuteCleaningFrequency, fs.equipmentMaintenanceFrequency,
       fs.wasteRoomCleaningFrequency, fs.binCleaningFrequency, fs.odourControlFrequency]
  | .waste, fs =>
      [fs.chuteCleaningFrequency, fs.equipmentMaintenanceFrequency,
       fs.selfClosingHopperDoorInspectionFrequency, fs.binCleaningFrequency,
       fs.odourControlFrequency]
  | .bin, fs =>
      [fs.chuteCleaningFrequency, fs.equipmentMaintenanceFrequency,
       fs.selfClosingHopperDoorInspectionFrequency, fs.wasteRoomCleaningFrequency,
       fs.odourControlFrequency]
  | .odour, fs =>
      [fs.chuteCleaningFrequency, fs.equipmentMaintenanceFrequency,
       fs.selfClosingHopperDoorInspectionFrequency, fs.wasteRoomCleaningFrequency,
       fs.binCleaningFrequency]


/-! ## Point updates and the nested-sum view of the subtotal (for C4) -/

/-- Replace the `n`-th element of a list by `f` applied to it (identity when the
index is out of range). -/
def updList (f : α → α) : ℕ → List α → List α
  | _, [] => []
  | 0, a :: l => f a :: l
  | n + 1, a :: l => a :: updList f n l

/-- The sites list with the price of service `k` of building `j` of site `i`
replaced by `p` (unchanged when an index is out of range or an array is absent). -/
def updatePrice (sites : List Site) (i j k : ℕ) (p : JVal) : List Site :=
  updList (fun site =>
    { site with buildings := site.buildings.map (updList (fun b =>
        { b with services := b.services.map (updList (fun s => { s with price := p }) k) }) j) })
    i sites

/-- The service at position `(i, j, k)` of the sites hierarchy, if any. -/
def serviceAt (sites : List Site) (i j k : ℕ) : Option Service :=
  sites[i]?.bind fun site =>
    site.buildings.bind fun bs =>
      bs[j]?.bind fun b =>
        b.services.bind fun ss => ss[k]?

/-- The contribution of one service to `gtSubtotal`, with the six mutually
exclusive category terms (the billing rule of each category, zero for a
non-matching type). -/
def svcTerm (fs : Frequencies) (units : UnitsMap) (s : Service) : ℚ :=
  (if s.type = "chute_cleaning" then
     getNumber s.price * frequencyToMultiplier fs.chuteCleaningFrequency * getNumber s.chutes
   else 0) +
  (if s.type = "equipment_maintenance" then
     getNumber s.price * frequencyToMultiplier fs.equipmentMaintenanceFrequency *
       getNumber s.quantity
   else 0) +
  (if s.type = "hopper_door_inspection" then
     getNumber s.price * frequencyToMultiplier fs.selfClosingHopperDoorInspectionFrequency *
       getNumber s.chutes
   else 0) +
  (if s.type = "waste_room_pressure_clean" then
     getNumber s.price * frequencyToMultiplier fs.wasteRoomCleaningFrequency
   else 0) +
  (if s.type = "bin_cleaning" then
     getNumber s.price * frequencyToMultiplier fs.binCleaningFrequency
   else 0) +
  (if s.type = "odour_control" then
     getNumber (unitsLookup units s.id) * getNumber s.price *
       frequencyToMultiplier fs.odourControlFrequency
   else 0)

/-- Sum of the service contributions of one building. -/
def bSum (fs : Frequencies) (units : UnitsMap) (b : Building) : ℚ :=
  ((b.services.getD []).map (svcTerm fs units)).sum

/-- Sum of the service contributions of one site. -/
def siteSum (fs : Frequencies) (units : UnitsMap) (site : Site) : ℚ :=
  ((site.buildings.getD []).map (bSum fs units)).sum

/-- Sum of all service contributions of the whole hierarchy. -/
def sitesSum (sites : List Site) (fs : Frequencies) (units : UnitsMap) : ℚ :=
  (sites.map (siteSum fs units)).sum

/-- C4 counterexample data: a chute-cleaning service with a *negative* chute
count alongside an ordinary one. -/
def cexNegChuteService : Service :=
  { id := .str "neg", type := "chute_cleaning", price := .num 0, quantity := .nul,
    chutes := .num (-1), levels := .nul, area_label := none, equipment := none,
    equipment_label := none, bin_size := none }

/-- C4 counterexample data: an ordinary chute-cleaning service. -/
def cexPosChuteService : Service :=
  { id := .str "pos", type := "chute_cleaning", price := .num 100, quantity := .nul,
    chutes := .num 1, levels := .nul, area_label := none, equipment := none,
    equipment_label := none, bin_size := none }

/-- C4 counterexample data: one site, one building, the two services above. -/
def cexSites : List Site :=
  [{ site_name := some "S", simpro_site_id := .num 1,
     buildings := some [{ id := .num 1, name := some "B",
                          services := some [cexPosChuteService, cexNegChuteService] }] }]


/-- A concrete data object realizing scenario A inside `fillData`. -/
def scenarioAData : AgreementData :=
  { emptyAgreementData with
    serviceAgreement := some
      { start_date := none, end_date := none, sites := some [scenarioASite],
        incentives := JVal.nul, salesperson := none }
    chuteCleaningFrequency := some "quarterly" }

/-! ## Theorems -/

/-- Helper: the embedded `Math.max` agrees with `max` on `ℚ`. -/
theorem jsMax_eq_max (a b : ℚ) : jsMax a b = max a b := by
  unfold jsMax
  split_ifs with h
  · exact (max_eq_left h.le).symm
  · exact (max_eq_right (not_lt.mp h)).symm

/-- **C1.** For every input (arbitrary sites, frequencies, odour-unit map, discount
rule, and incentives flag), `computeGrandTotal` returns
`max 0 (subtotal - discountAmount)` and is therefore always non-negative. -/
theorem computeGrandTotal_eq_max_and_nonneg (sites : List Site) (fs : Frequencies)
    (units : UnitsMap) (gd : Option ℚ → ℚ) (inc : JVal) :
    computeGrandTotal sites fs units gd inc =
      max 0 (gtSubtotal sites fs units - gtDiscountAmt sites fs units gd inc) ∧
    0 ≤ computeGrandTotal sites fs units gd inc := by
  have h := jsMax_eq_max 0 (gtSubtotal sites fs units - gtDiscountAmt sites fs units gd inc)
  exact ⟨h, by rw [computeGrandTotal, h]; exact le_max_left 0 _⟩

/-- **C2.** `frequencyToMultiplier` first trims and lowercases its argument, returns
0 for the empty string or `"none"`, 1 for `"yearly"`, 2 for the three six-monthly
spellings, 4 for every other non-empty string, and its result is always one of
`{0, 1, 2, 4}`. -/
theorem frequencyToMultiplier_cases (f : Option String) :
    (frequencyToMultiplier f =
      (let s := jsLower (jsTrim (f.getD ""))
       if s = "" ∨ s = "none" then 0
       else if s = "yearly" then 1
       else if s = "six-monthly" ∨ s = "6monthly" ∨ s = "six monthly" then 2
       else 4)) ∧
    (frequencyToMultiplier f = 0 ∨ frequencyToMultiplier f = 1 ∨
     frequencyToMultiplier f = 2 ∨ frequencyToMultiplier f = 4) := by
  constructor
  · simp only [frequencyToMultiplier]
    split_ifs <;> simp_all
  · simp only [frequencyToMultiplier]
    split_ifs <;> simp

/-- **C3.** The default discount rule: every count below 3 gives 0%, counts 4 and 5
give 5%, counts of 6 or more give 10%, a count of exactly 3 falls through to 0%,
and a non-finite count gives 0%. -/
theorem getDiscountDefault_tiers :
    (∀ c : ℚ, c < 3 → getDiscountDefault (some c) = 0) ∧
    getDiscountDefault (some 4) = 5 ∧
    getDiscountDefault (some 5) = 5 ∧
    (∀ c : ℚ, 6 ≤ c → getDiscountDefault (some c) = 10) ∧
    getDiscountDefault (some 3) = 0 ∧
    getDiscountDefault none = 0 := by
  refine ⟨fun c h => ?_, by norm_num [getDiscountDefault], by norm_num [getDiscountDefault],
          fun c h => ?_, by norm_num [getDiscountDefault], by norm_num [getDiscountDefault]⟩
  · simp [getDiscountDefault, h]
  · have h3 : ¬ c < 3 := by linarith
    have h46 : ¬ (4 ≤ c ∧ c < 6) := by rintro ⟨-, h6⟩; linarith
    simp [getDiscountDefault, h3, h46, h]

/-- Witness for C3: the tier bounds applied at concrete counts 2 and 7. -/
theorem getDiscountDefault_tiers_witness :
    getDiscountDefault (some 2) = 0 ∧ getDiscountDefault (some 7) = 10 :=
  ⟨getDiscountDefault_tiers.1 2 (by norm_num),
   getDiscountDefault_tiers.2.2.2.1 7 (by norm_num)⟩

/-- Helper: `parseUnsignedFloat` never produces a negative value. -/
theorem parseUnsignedFloat_nonneg (l : List Char) (q : ℚ)
    (h : parseUnsignedFloat l = some q) : 0 ≤ q := by
  unfold parseUnsignedFloat at h
  dsimp only at h
  split at h
  · split at h
    · exact absurd h (by simp)
    · have := Option.some.inj h
      subst this
      positivity
  · split at h
    · exact absurd h (by simp)
    · have := Option.some.inj h
      subst this
      positivity

/-- Helper: a character produced by `replaceFirstComma` other than `'.'` was
already in the input. -/
theorem mem_of_mem_replaceFirstComma {c : Char} :
    ∀ {l : List Char}, c ∈ replaceFirstComma l → c ≠ '.' → c ∈ l := by
  intro l
  induction l with
  | nil => intro h _; simp [replaceFirstComma] at h
  | cons a rest ih =>
      intro h hc
      by_cases ha : a = ','
      · simp only [replaceFirstComma, ha, if_pos] at h
        rcases List.mem_cons.mp h with h1 | h1
        · exact absurd h1 hc
        · exact List.mem_cons_of_mem _ h1
      · simp only [replaceFirstComma, if_neg ha] at h
        rcases List.mem_cons.mp h with h1 | h1
        · exact h1 ▸ List.mem_cons_self _ _
        · exact List.mem_cons_of_mem _ (ih h1 hc)

/-- Helper: `parseFloatQ` on a minus-free input never produces a negative value. -/
theorem parseFloatQ_nonneg (l : List Char) (hm : '-' ∉ l) (q : ℚ)
    (h : parseFloatQ l = some q) : 0 ≤ q := by
  unfold parseFloatQ at h
  split at h
  · exact absurd (List.mem_cons_self _ _) hm
  · exact parseUnsignedFloat_nonneg _ _ h
  · exact parseUnsignedFloat_nonneg _ _ h

/-- **C5 (counterexample).** The claim "getNumber of every price string containing
a currency symbol is ≥ 0" fails: `"$-5"` contains the currency symbol `$` yet
parses to the negative number −5. -/
theorem getNumber_currency_negative :
    getNumber (.str "$-5") = -5 ∧ getNumber (.str "$-5") < 0 := by
  constructor <;> decide

/-- **C5 (amended).** For every price string not containing a minus sign (in
particular every string made of a currency symbol, digits, and thousands
separators), `getNumber` returns a (finite) value ≥ 0; and `getNumber` of
`null`/`undefined` is 0.  (`getNumber` is a total Lean function, so it cannot
raise; unparseable input falls back to 0 by definition.) -/
theorem getNumber_nonneg_of_no_minus :
    (∀ s : String, '-' ∉ s.data → 0 ≤ getNumber (.str s)) ∧
    getNumber .nul = 0 := by
  refine ⟨fun s hm => ?_, rfl⟩
  show 0 ≤ parsePriceChars s
  unfold parsePriceChars
  have hclean : '-' ∉ s.data.filter keepNumChar := by
    intro h
    exact hm (List.mem_of_mem_filter h)
  have hnorm : '-' ∉
      (if '.' ∈ s.data.filter keepNumChar ∧ ',' ∈ s.data.filter keepNumChar
       then (s.data.filter keepNumChar).filter (fun c => c ≠ ',')
       else replaceFirstComma (s.data.filter keepNumChar)) := by
    split
    · intro h
      exact hclean (List.mem_of_mem_filter h)
    · intro h
      exact hclean (mem_of_mem_replaceFirstComma h (by decide))
  simp only
  split
  · next q hq => exact parseFloatQ_nonneg _ hnorm q hq
  · exact le_refl 0

/-- Witness for C5 (amended): the theorem applied to the price string
`"$1,250.50"`, which contains a currency symbol and a thousands separator. -/
theorem getNumber_nonneg_of_no_minus_witness :
    0 ≤ getNumber (.str "$1,250.50") :=
  getNumber_nonneg_of_no_minus.1 "$1,250.50" (by decide)

/-- **C6.** Scenario A: one chute-cleaning service priced 450.00 with 2 chutes,
chute-cleaning frequency "quarterly", all other frequencies null, incentives
disabled — the grand total is 450 × 4 × 2 = 3600 (1 selected category, 0% discount). -/
theorem computeGrandTotal_scenarioA :
    computeGrandTotal [scenarioASite] scenarioAFreqs [] getDiscountDefault .nul = 3600 := by
  norm_num +decide [computeGrandTotal, gtSubtotal, gtChuteAnnual, gtEquipAnnual,
    gtHopperAnnual, gtWasteAnnual, gtBinAnnual, gtOdourAnnual, gtDiscountAmt,
    gtServiceCount, freqList, freqSelected, getServices, getServiceAnualCost,
    getServiceAnualChuteCost, getServiceAnualEquipmentCost, frequencyToMultiplier,
    getNumber, parsePriceChars, parseFloatQ, parseUnsignedFloat, digitsToNat,
    getDiscountDefault, jsMax, numOr0, annotateService, scenarioAService,
    scenarioASite, scenarioAFreqs, JVal.truthy, unitsLookup, jvalKey, jsOrNull]

/-- Helper: a `null` frequency has multiplier 0. -/
theorem frequencyToMultiplier_none : frequencyToMultiplier none = 0 := by decide

/-- **C7.** `getServices` returns exactly the services whose type matches, each
extended with `site_name`, `site_id`, `building_id`, `building_name` from its
enclosing site and building, in input order at every level; missing `sites`,
`buildings` or `services` arrays are treated as empty (and the function is total,
so it never raises). -/
theorem getServices_eq_collectSpec (sites : List Site) (ty : String) (hty : ty ≠ "") :
    (getServices (some sites) ty).type = ty ∧
    (getServices (some sites) ty).items = collectSpec sites ty ∧
    (getServices none ty).items = [] := by
  refine ⟨?_, ?_, rfl⟩
  · simp [getServices, hty]
  · simp [getServices, collectSpec, hty]

/-- Witness for C7: the collector equivalence at a concrete one-site input. -/
theorem getServices_eq_collectSpec_witness :
    (getServices (some [scenarioASite]) "chute_cleaning").items =
      collectSpec [scenarioASite] "chute_cleaning" :=
  (getServices_eq_collectSpec [scenarioASite] "chute_cleaning" (by decide)).2.1

/-- **C8.** A category whose frequency is `null` is excluded from the grand total:
its annual-cost term in the subtotal is 0 and it is not counted towards the
selected-category count, all other inputs held fixed. -/
theorem nullFrequency_excluded (sites : List Site) (fs : Frequencies)
    (units : UnitsMap) (cat : Category) (h : freqOf cat fs = none) :
    catAnnual cat sites fs units = 0 ∧
    gtServiceCount fs = ((freqListWithout cat fs).filter freqSelected).length := by
  cases cat <;> simp only [freqOf] at h <;> refine ⟨?_, ?_⟩ <;>
    simp [catAnnual, gtChuteAnnual, gtEquipAnnual, gtHopperAnnual, gtWasteAnnual,
      gtBinAnnual, gtOdourAnnual, getServiceAnualChuteCost,
      getServiceAnualEquipmentCost, getServiceAnualCost, h,
      frequencyToMultiplier_none, gtServiceCount, freqList, freqListWithout,
      freqSelected, List.filter_cons]

/-- Witness for C8: scenario A's frequencies have a `null` equipment-maintenance
frequency, so that category contributes 0 and is not counted. -/
theorem nullFrequency_excluded_witness :
    catAnnual .equip [scenarioASite] scenarioAFreqs [] = 0 ∧
    gtServiceCount scenarioAFreqs =
      ((freqListWithout .equip scenarioAFreqs).filter freqSelected).length :=
  nullFrequency_excluded [scenarioASite] scenarioAFreqs [] .equip rfl

/-- Helper: folding `acc + f s` equals the starting value plus the mapped sum. -/
theorem foldl_add_sum (f : α → ℚ) : ∀ (l : List α) (a : ℚ),
    List.foldl (fun acc s => acc + f s) a l = a + (l.map f).sum := by
  intro l
  induction l with
  | nil => intro a; simp
  | cons x xs ih => intro a; simp [ih, add_assoc]

/-- Helper: the per-chute cost function as a mapped sum (the multiplier factor
makes the guard redundant). -/
theorem chuteCost_eq_sum (items : List SService) (fr : Option String) :
    getServiceAnualChuteCost items fr =
      (items.map (fun s =>
        getNumber s.price * frequencyToMultiplier fr * getNumber s.chutes)).sum := by
  unfold getServiceAnualChuteCost
  dsimp only
  split
  · next h =>
      rcases h with h | h
      · rw [eq_comm, List.sum_eq_zero]
        intro x hx
        rw [List.mem_map] at hx
        obtain ⟨s, _, rfl⟩ := hx
        rw [h]
        ring
      · subst h; simp
  · next h => rw [foldl_add_sum, zero_add]

/-- Helper: the per-quantity cost function as a mapped sum. -/
theorem equipCost_eq_sum (items : List SService) (fr : Option String) :
    getServiceAnualEquipmentCost items fr =
      (items.map (fun s =>
        getNumber s.price * frequencyToMultiplier fr * getNumber s.quantity)).sum := by
  unfold getServiceAnualEquipmentCost
  dsimp only
  split
  · next h =>
      rcases h with h | h
      · rw [eq_comm, List.sum_eq_zero]
        intro x hx
        rw [List.mem_map] at hx
        obtain ⟨s, _, rfl⟩ := hx
        rw [h]
        ring
      · subst h; simp
  · next h => rw [foldl_add_sum, zero_add]

/-- Helper: the flat cost function as a mapped sum. -/
theorem flatCost_eq_sum (items : List SService) (fr : Option String) :
    getServiceAnualCost items fr =
      (items.map (fun s => getNumber s.price * frequencyToMultiplier fr)).sum := by
  unfold getServiceAnualCost
  dsimp only
  split
  · next h =>
      rcases h with h | h
      · rw [eq_comm, List.sum_eq_zero]
        intro x hx
        rw [List.mem_map] at hx
        obtain ⟨s, _, rfl⟩ := hx
        rw [h]
        ring
      · subst h; simp
  · next h => rw [foldl_add_sum, zero_add]

/-- Helper: the odour-control annual cost as a mapped sum. -/
theorem odourAnnual_eq_sum (sites : List Site) (fs : Frequencies) (units : UnitsMap) :
    gtOdourAnnual sites fs units =
      ((getServices (some sites) "odour_control").items.map (fun r =>
        getNumber (unitsLookup units r.id) * getNumber r.price *
          frequencyToMultiplier fs.odourControlFrequency)).sum := by
  unfold gtOdourAnnual
  dsimp only
  split
  · next h =>
      rw [eq_comm, List.sum_eq_zero]
      intro x hx
      rw [List.mem_map] at hx
      obtain ⟨s, _, rfl⟩ := hx
      rw [h]
      ring
  · next h => rw [foldl_add_sum, zero_add]

/-- Helper: for a non-empty type string, the items of `getServices` are the
spec-side collector's list. -/
theorem getServices_items (sites : List Site) (ty : String) (hty : ty ≠ "") :
    (getServices (some sites) ty).items = collectSpec sites ty := by
  simp [getServices, collectSpec, hty]

/-- Helper: sum over a filtered list as a guarded sum over the whole list. -/
theorem sum_map_filter (p : α → Bool) (g : α → ℚ) (l : List α) :
    ((l.filter p).map g).sum = (l.map (fun a => if p a then g a else 0)).sum := by
  induction l with
  | nil => simp
  | cons a xs ih => by_cases h : p a <;> simp [List.filter_cons, h, ih]

/-- Helper: sum over a flatMap as an iterated sum. -/
theorem sum_map_flatMap (F : α → List β) (g : β → ℚ) (l : List α) :
    ((l.flatMap F).map g).sum = (l.map (fun a => ((F a).map g).sum)).sum := by
  induction l with
  | nil => simp
  | cons a xs ih => simp [ih]

/-- Helper: mapped sums distribute over pointwise addition. -/
theorem sum_map_add (f g : α → ℚ) (l : List α) :
    (l.map (fun a => f a + g a)).sum = (l.map f).sum + (l.map g).sum := by
  induction l with
  | nil => simp
  | cons a xs ih => simp [ih]; ring

/-- Helper: a sum of a metadata-independent function over the collector's output
is the nested guarded sum over the raw hierarchy. -/
theorem sum_collect (sites : List Site) (ty : String) (g : SService → ℚ)
    (g0 : Service → ℚ) (hg : ∀ site b s, g (annotateService site b s) = g0 s) :
    ((collectSpec sites ty).map g).sum =
      (sites.map (fun site =>
        ((site.buildings.getD []).map (fun b =>
          ((b.services.getD []).map (fun s =>
            if s.type = ty then g0 s else 0)).sum)).sum)).sum := by
  unfold collectSpec
  rw [sum_map_flatMap]
  refine congrArg List.sum (List.map_congr_left fun site _ => ?_)
  rw [sum_map_flatMap]
  refine congrArg List.sum (List.map_congr_left fun b _ => ?_)
  rw [List.map_map]
  have : (g ∘ annotateService site b) = g0 := funext fun s => hg site b s
  rw [this, sum_map_filter]
  refine congrArg List.sum (List.map_congr_left fun s _ => ?_)
  by_cases h : s.type = ty <;> simp [h]

/-- Helper: the subtotal of `computeGrandTotal` equals the nested sum of
per-service contributions. -/
theorem gtSubtotal_eq_sitesSum (sites : List Site) (fs : Frequencies)
    (units : UnitsMap) :
    gtSubtotal sites fs units = sitesSum sites fs units := by
  have hc : gtChuteAnnual sites fs =
      (sites.map (fun site => ((site.buildings.getD []).map (fun b =>
        ((b.services.getD []).map (fun s => if s.type = "chute_cleaning" then
          getNumber s.price * frequencyToMultiplier fs.chuteCleaningFrequency *
            getNumber s.chutes else 0)).sum)).sum)).sum := by
    rw [gtChuteAnnual, chuteCost_eq_sum, getServices_items _ _ (by decide),
      sum_collect _ _ _ (fun s => getNumber s.price *
        frequencyToMultiplier fs.chuteCleaningFrequency * getNumber s.chutes)
        (fun site b s => rfl)]
  have he : gtEquipAnnual sites fs =
      (sites.map (fun site => ((site.buildings.getD []).map (fun b =>
        ((b.services.getD []).map (fun s => if s.type = "equipment_maintenance" then
          getNumber s.price * frequencyToMultiplier fs.equipmentMaintenanceFrequency *
            getNumber s.quantity else 0)).sum)).sum)).sum := by
    rw [gtEquipAnnual, equipCost_eq_sum, getServices_items _ _ (by decide),
      sum_collect _ _ _ (fun s => getNumber s.price *
        frequencyToMultiplier fs.equipmentMaintenanceFrequency * getNumber s.quantity)
        (fun site b s => rfl)]
  have hh : gtHopperAnnual sites fs =
      (sites.map (fun site => ((site.buildings.getD []).map (fun b =>
        ((b.services.getD []).map (fun s => if s.type = "hopper_door_inspection" then
          getNumber s.price *
            frequencyToMultiplier fs.selfClosingHopperDoorInspectionFrequency *
            getNumber s.chutes else 0)).sum)).sum)).sum := by
    rw [gtHopperAnnual, chuteCost_eq_sum, getServices_items _ _ (by decide),
      sum_collect _ _ _ (fun s => getNumber s.price *
        frequencyToMultiplier fs.selfClosingHopperDoorInspectionFrequency *
        getNumber s.chutes) (fun site b s => rfl)]
  have hw : gtWasteAnnual sites fs =
      (sites.map (fun site => ((site.buildings.getD []).map (fun b =>
        ((b.services.getD []).map (fun s => if s.type = "waste_room_pressure_clean" then
          getNumber s.price * frequencyToMultiplier fs.wasteRoomCleaningFrequency
          else 0)).sum)).sum)).sum := by
    rw [gtWasteAnnual, flatCost_eq_sum, getServices_items _ _ (by decide),
      sum_collect _ _ _ (fun s => getNumber s.price *
        frequencyToMultiplier fs.wasteRoomCleaningFrequency) (fun site b s => rfl)]
  have hb : gtBinAnnual sites fs =
      (sites.map (fun site => ((site.buildings.getD []).map (fun b =>
        ((b.services.getD []).map (fun s => if s.type = "bin_cleaning" then
          getNumber s.price * frequencyToMultiplier fs.binCleaningFrequency
          else 0)).sum)).sum)).sum := by
    rw [gtBinAnnual, flatCost_eq_sum, getServices_items _ _ (by decide),
      sum_collect _ _ _ (fun s => getNumber s.price *
        frequencyToMultiplier fs.binCleaningFrequency) (fun site b s => rfl)]
  have ho : gtOdourAnnual sites fs units =
      (sites.map (fun site => ((site.buildings.getD []).map (fun b =>
        ((b.services.getD []).map (fun s => if s.type = "odour_control" then
          getNumber (unitsLookup units s.id) * getNumber s.price *
            frequencyToMultiplier fs.odourControlFrequency else 0)).sum)).sum)).sum := by
    rw [odourAnnual_eq_sum, getServices_items _ _ (by decide),
      sum_collect _ _ _ (fun s => getNumber (unitsLookup units s.id) *
        getNumber s.price * frequencyToMultiplier fs.odourControlFrequency)
        (fun site b s => rfl)]
  rw [gtSubtotal, hc, he, hh, hw, hb, ho]
  unfold sitesSum siteSum bSum svcTerm
  simp only [sum_map_add]

/-- Helper: `updList` is the identity when `f` fixes the target element (in
particular when the index is out of range). -/
theorem updList_eq_self (f : α → α) : ∀ (n : ℕ) (l : List α),
    (∀ (hn : n < l.length), f l[n] = l[n]) →
    updList f n l = l := by
  intro n
  induction n with
  | zero =>
      intro l h
      cases l with
      | nil => rfl
      | cons a xs =>
          have ha := h (by simp)
          simpa [updList] using ha
  | succ n ih =>
      intro l h
      cases l with
      | nil => rfl
      | cons a xs =>
          have := ih xs (fun hn => h (by simpa using Nat.succ_lt_succ hn))
          simpa [updList] using this

/-- Helper: sum of a mapped list after a point update. -/
theorem sum_map_updList (f : α → α) (g : α → ℚ) : ∀ (n : ℕ) (l : List α)
    (hn : n < l.length),
    ((updList f n l).map g).sum =
      (l.map g).sum - g l[n] + g (f l[n]) := by
  intro n
  induction n with
  | zero =>
      intro l hn
      cases l with
      | nil => simp at hn
      | cons a xs => simp [updList]; ring
  | succ n ih =>
      intro l hn
      cases l with
      | nil => simp at hn
      | cons a xs =>
          have hn' : n < xs.length := by simpa using hn
          simp [updList, ih xs hn']
          ring

/-- Helper: mapping a function that fixes the present `buildings` list over a
site changes nothing. -/
theorem site_map_buildings_self (site : Site) (F : List Building → List Building)
    (h : ∀ bs, site.buildings = some bs → F bs = bs) :
    { site with buildings := site.buildings.map F } = site := by
  cases site with
  | mk sn sid bo =>
      cases bo with
      | none => rfl
      | some bs => simp [h bs rfl]

/-- Helper: mapping a function that fixes the present `services` list over a
building changes nothing. -/
theorem building_map_services_self (b : Building) (F : List Service → List Service)
    (h : ∀ ss, b.services = some ss → F ss = ss) :
    { b with services := b.services.map F } = b := by
  cases b with
  | mk bid bname so =>
      cases so with
      | none => rfl
      | some ss => simp [h ss rfl]

/-- Helper: when no service sits at `(i, j, k)`, `updatePrice` changes nothing. -/
theorem updatePrice_eq_of_none (sites : List Site) (i j k : ℕ) (p : JVal)
    (h : serviceAt sites i j k = none) : updatePrice sites i j k p = sites := by
  unfold updatePrice
  apply updList_eq_self
  intro hi
  apply site_map_buildings_self
  intro bs hbs
  apply updList_eq_self
  intro hj
  apply building_map_services_self
  intro ss hss
  apply updList_eq_self
  intro hk
  exfalso
  unfold serviceAt at h
  rw [List.getElem?_eq_getElem hi, Option.some_bind, hbs, Option.some_bind,
    List.getElem?_eq_getElem hj, Option.some_bind, hss, Option.some_bind,
    List.getElem?_eq_getElem hk] at h
  exact absurd h (by simp)

/-- Helper: effect of a price point-update on a building's contribution. -/
theorem bSum_update (fs : Frequencies) (units : UnitsMap) (b : Building) (k : ℕ)
    (p : JVal) (ss : List Service) (hso : b.services = some ss) (hk : k < ss.length) :
    bSum fs units
      { b with services := (b.services.map (updList (fun s => { s with price := p }) k)) } =
      bSum fs units b - svcTerm fs units ss[k] +
        svcTerm fs units { ss[k] with price := p } := by
  cases b with
  | mk bid bname so =>
      have hso' : so = some ss := hso
      subst hso'
      show ((updList (fun s => { s with price := p }) k ss).map (svcTerm fs units)).sum =
        ((ss.map (svcTerm fs units)).sum) - svcTerm fs units ss[k] +
          svcTerm fs units { ss[k] with price := p }
      rw [sum_map_updList _ _ k ss hk]

/-- Helper: effect of an inner building update on a site's contribution. -/
theorem siteSum_update (fs : Frequencies) (units : UnitsMap) (site : Site) (j : ℕ)
    (G : Building → Building) (bs : List Building) (hbo : site.buildings = some bs)
    (hj : j < bs.length) :
    siteSum fs units { site with buildings := site.buildings.map (updList G j) } =
      siteSum fs units site - bSum fs units bs[j] + bSum fs units (G bs[j]) := by
  cases site with
  | mk sn sid bo =>
      have hbo' : bo = some bs := hbo
      subst hbo'
      show ((updList G j bs).map (bSum fs units)).sum =
        ((bs.map (bSum fs units)).sum) - bSum fs units bs[j] + bSum fs units (G bs[j])
      rw [sum_map_updList _ _ j bs hj]

/-- Helper: effect of the price point-update on the total service contribution
when a service is present at the updated position. -/
theorem sitesSum_updatePrice (sites : List Site) (fs : Frequencies) (units : UnitsMap)
    (i j k : ℕ) (p : JVal) (s : Service) (h : serviceAt sites i j k = some s) :
    sitesSum (updatePrice sites i j k p) fs units =
      sitesSum sites fs units - svcTerm fs units s +
        svcTerm fs units { s with price := p } := by
  by_cases hi : i < sites.length
  · rw [serviceAt, List.getElem?_eq_getElem hi, Option.some_bind] at h
    cases hbo : sites[i].buildings with
    | none => rw [hbo, Option.none_bind] at h; exact absurd h (by simp)
    | some bs =>
        rw [hbo, Option.some_bind] at h
        by_cases hj : j < bs.length
        · rw [List.getElem?_eq_getElem hj, Option.some_bind] at h
          cases hso : bs[j].services with
          | none => rw [hso, Option.none_bind] at h; exact absurd h (by simp)
          | some ss =>
              rw [hso, Option.some_bind] at h
              by_cases hk : k < ss.length
              · rw [List.getElem?_eq_getElem hk] at h
                have hseq : ss[k] = s := Option.some.inj h
                unfold updatePrice sitesSum
                rw [sum_map_updList _ _ i sites hi]
                rw [siteSum_update fs units sites[i] j _ bs hbo hj]
                rw [bSum_update fs units bs[j] k p ss hso hk]
                rw [hseq]
                ring
              · rw [List.getElem?_eq_none (Nat.le_of_not_lt hk)] at h
                exact absurd h (by simp)
        · rw [List.getElem?_eq_none (Nat.le_of_not_lt hj), Option.none_bind] at h
          exact absurd h (by simp)
  · rw [serviceAt, List.getElem?_eq_none (Nat.le_of_not_lt hi), Option.none_bind] at h
    exact absurd h (by simp)

/-- Helper: frequency multipliers are never negative. -/
theorem frequencyToMultiplier_nonneg (f : Option String) :
    0 ≤ frequencyToMultiplier f := by
  unfold frequencyToMultiplier
  dsimp only
  split_ifs <;> norm_num

/-- Helper: the default discount rule only returns 0, 5 or 10. -/
theorem getDiscountDefault_mem (x : Option ℚ) :
    getDiscountDefault x = 0 ∨ getDiscountDefault x = 5 ∨ getDiscountDefault x = 10 := by
  unfold getDiscountDefault
  dsimp only
  split_ifs <;> simp

/-- Helper: `Number(x) || 0` is the identity on finite numbers. -/
theorem numOr0_self (q : ℚ) : numOr0 q = q := by
  unfold numOr0
  split_ifs with h
  · exact h.symm
  · rfl

/-- Helper: a service's contribution is monotone in its price when its weight
fields (chutes, quantity, odour units) are non-negative. -/
theorem svcTerm_price_mono (fs : Frequencies) (units : UnitsMap) (s : Service)
    (p1 p2 : JVal) (hp : getNumber p1 ≤ getNumber p2)
    (hc : 0 ≤ getNumber s.chutes) (hq : 0 ≤ getNumber s.quantity)
    (hu : 0 ≤ getNumber (unitsLookup units s.id)) :
    svcTerm fs units { s with price := p1 } ≤ svcTerm fs units { s with price := p2 } := by
  unfold svcTerm
  dsimp only
  refine add_le_add (add_le_add (add_le_add (add_le_add (add_le_add ?_ ?_) ?_) ?_) ?_) ?_
  · split_ifs
    · exact mul_le_mul_of_nonneg_right
        (mul_le_mul_of_nonneg_right hp (frequencyToMultiplier_nonneg _)) hc
    · exact le_refl 0
  · split_ifs
    · exact mul_le_mul_of_nonneg_right
        (mul_le_mul_of_nonneg_right hp (frequencyToMultiplier_nonneg _)) hq
    · exact le_refl 0
  · split_ifs
    · exact mul_le_mul_of_nonneg_right
        (mul_le_mul_of_nonneg_right hp (frequencyToMultiplier_nonneg _)) hc
    · exact le_refl 0
  · split_ifs
    · exact mul_le_mul_of_nonneg_right hp (frequencyToMultiplier_nonneg _)
    · exact le_refl 0
  · split_ifs
    · exact mul_le_mul_of_nonneg_right hp (frequencyToMultiplier_nonneg _)
    · exact le_refl 0
  · split_ifs
    · exact mul_le_mul_of_nonneg_right
        (mul_le_mul_of_nonneg_left hp hu) (frequencyToMultiplier_nonneg _)
    · exact le_refl 0

/-- **C4 (amended).** With the default discount rule, `computeGrandTotal` is
monotone non-decreasing in any single service's price, holding everything else
fixed, *provided* the parsed weight fields of the touched service (chute count,
quantity, and its odour-unit entry) are non-negative.  (The unamended claim is
refuted by `computeGrandTotal_price_not_mono`: a negative weight flips the
direction.) -/
theorem computeGrandTotal_price_mono (sites : List Site) (fs : Frequencies)
    (units : UnitsMap) (inc : JVal) (i j k : ℕ) (p1 p2 : JVal)
    (hp : getNumber p1 ≤ getNumber p2)
    (hw : ∀ s, serviceAt sites i j k = some s →
      0 ≤ getNumber s.chutes ∧ 0 ≤ getNumber s.quantity ∧
      0 ≤ getNumber (unitsLookup units s.id)) :
    computeGrandTotal (updatePrice sites i j k p1) fs units getDiscountDefault inc ≤
      computeGrandTotal (updatePrice sites i j k p2) fs units getDiscountDefault inc := by
  have hsub : gtSubtotal (updatePrice sites i j k p1) fs units ≤
      gtSubtotal (updatePrice sites i j k p2) fs units := by
    rw [gtSubtotal_eq_sitesSum, gtSubtotal_eq_sitesSum]
    cases hs : serviceAt sites i j k with
    | none => rw [updatePrice_eq_of_none _ _ _ _ _ hs, updatePrice_eq_of_none _ _ _ _ _ hs]
    | some s =>
        obtain ⟨hc, hq, hu⟩ := hw s hs
        rw [sitesSum_updatePrice _ _ _ _ _ _ _ _ hs, sitesSum_updatePrice _ _ _ _ _ _ _ _ hs]
        have hmono := svcTerm_price_mono fs units s p1 p2 hp hc hq hu
        linarith
  unfold computeGrandTotal gtDiscountAmt
  dsimp only
  rw [jsMax_eq_max, jsMax_eq_max]
  set c := numOr0 (getDiscountDefault (some ((gtServiceCount fs : ℕ) : ℚ))) with hcdef
  have hc01 : 0 ≤ c ∧ c ≤ 100 := by
    rcases getDiscountDefault_mem (some ((gtServiceCount fs : ℕ) : ℚ)) with h | h | h <;>
      rw [hcdef, numOr0_self, h] <;> norm_num
  by_cases hcond : c ≠ 0 ∧ inc.truthy = true
  · rw [if_pos hcond, if_pos hcond]
    apply max_le_max le_rfl
    have h100 : (0:ℚ) ≤ 1 - c / 100 := by have := hc01.2; linarith
    have key := mul_le_mul_of_nonneg_right hsub h100
    nlinarith [key]
  · rw [if_neg hcond, if_neg hcond]
    exact max_le_max le_rfl (by linarith)

/-- **C4 (counterexample).** `computeGrandTotal` is *not* monotone in a single
service's price in general: with a chute-cleaning service whose `chutes` field is
−1, raising that service's price from 0 to 10 (all other inputs fixed) strictly
*decreases* the grand total (from 400 to 360). -/
theorem computeGrandTotal_price_not_mono :
    getNumber (JVal.num 0) ≤ getNumber (JVal.num 10) ∧
    computeGrandTotal (updatePrice cexSites 0 0 1 (.num 10)) scenarioAFreqs []
        getDiscountDefault .nul <
      computeGrandTotal (updatePrice cexSites 0 0 1 (.num 0)) scenarioAFreqs []
        getDiscountDefault .nul := by
  constructor
  · norm_num [getNumber]
  · norm_num +decide [computeGrandTotal, gtSubtotal, gtChuteAnnual, gtEquipAnnual,
      gtHopperAnnual, gtWasteAnnual, gtBinAnnual, gtOdourAnnual, gtDiscountAmt,
      gtServiceCount, freqList, freqSelected, getServices, getServiceAnualCost,
      getServiceAnualChuteCost, getServiceAnualEquipmentCost, frequencyToMultiplier,
      getNumber, getDiscountDefault, jsMax, numOr0, annotateService, cexSites,
      cexPosChuteService, cexNegChuteService, scenarioAFreqs, JVal.truthy,
      unitsLookup, jvalKey, jsOrNull, updatePrice, updList]

/-- Witness for C4 (amended): raising the price of the well-formed service
(chutes = 1) from 100 to 200 does not decrease the total. -/
theorem computeGrandTotal_price_mono_witness :
    computeGrandTotal (updatePrice cexSites 0 0 0 (.num 100)) scenarioAFreqs []
        getDiscountDefault .nul ≤
      computeGrandTotal (updatePrice cexSites 0 0 0 (.num 200)) scenarioAFreqs []
        getDiscountDefault .nul :=
  computeGrandTotal_price_mono cexSites scenarioAFreqs [] .nul 0 0 0 (.num 100)
    (.num 200) (by norm_num [getNumber])
    (by
      intro s hs
      have hval : serviceAt cexSites 0 0 0 = some cexPosChuteService := by decide
      rw [hval] at hs
      have hseq := Option.some.inj hs
      subst hseq
      exact ⟨by decide, by decide, by decide⟩)

/-- Helper: replacing in the empty string yields the empty string. -/
theorem replCore_nil (tok v : List Char) (h : tok ≠ []) : replCore tok v [] = [] := by
  rw [replCore]
  cases tok with
  | nil => exact absurd rfl h
  | cons c cs => simp [List.isPrefixOf]

/-- Helper: every character of a found substring occurs in the string. -/
theorem hasSub_mem (tok : List Char) : ∀ (s : List Char), hasSub tok s = true →
    ∀ c ∈ tok, c ∈ s := by
  intro s
  induction s with
  | nil =>
      intro h c hc
      simp only [hasSub] at h
      have : tok = [] := by
        cases tok with
        | nil => rfl
        | cons a as => simp [List.isPrefixOf] at h
      subst this
      simp at hc
  | cons a rest ih =>
      intro h c hc
      simp only [hasSub, Bool.or_eq_true] at h
      rcases h with h | h
      · exact (List.isPrefixOf_iff_prefix.mp h).subset hc
      · exact List.mem_cons_of_mem _ (ih h c hc)

/-- Helper: when the token does not occur, `replCore` is the identity. -/
theorem replCore_of_not_hasSub (tok v : List Char) (ht : tok ≠ []) :
    ∀ (s : List Char), hasSub tok s = false → replCore tok v s = s := by
  intro s
  induction s with
  | nil => intro _; exact replCore_nil tok v ht
  | cons c rest ih =>
      intro h
      simp only [hasSub, Bool.or_eq_false_iff] at h
      have hcond : ¬(tok ≠ [] ∧ tok.isPrefixOf (c :: rest) = true) := by
        simp [h.1]
      rw [replCore, dif_neg hcond]
      show c :: replCore tok v rest = c :: rest
      rw [ih h.2]

/-- Helper: replacing the whole string (equal to the token) gives the value. -/
theorem replCore_self (tok v : List Char) (h : tok ≠ []) : replCore tok v tok = v := by
  rw [replCore, dif_pos ⟨h, List.isPrefixOf_iff_prefix.mpr (List.prefix_refl _)⟩,
    List.drop_length, replCore_nil tok v h, List.append_nil]

/-- Helper: `safeReplaceAll` is the identity when the token does not occur. -/
theorem safeReplaceAll_of_not_hasSub (html token value : String)
    (ht : token.data ≠ []) (h : hasSub token.data html.data = false) :
    safeReplaceAll html token value = html := by
  unfold safeReplaceAll jsReplaceAll
  rw [if_neg ht, replCore_of_not_hasSub _ _ ht _ h]

/-- Helper: replacing the token inside itself gives exactly the value. -/
theorem safeReplaceAll_self (token value : String) (ht : token.data ≠ []) :
    safeReplaceAll token token value = value := by
  unfold safeReplaceAll jsReplaceAll
  rw [if_neg ht, replCore_self _ _ ht]

/-- Helper: replacing anything in the empty string gives the empty string. -/
theorem safeReplaceAll_empty (token value : String) :
    safeReplaceAll "" token value = "" := by
  unfold safeReplaceAll jsReplaceAll
  split
  · rfl
  · show (⟨replCore token.data value.data []⟩ : String) = ""
    next hne =>
    rw [replCore_nil _ _ hne]

/-- Helper: a token with a character the string lacks does not occur. -/
theorem not_hasSub_of_mem_not_mem (tok s : List Char) (c : Char) (hc : c ∈ tok)
    (hs : c ∉ s) : hasSub tok s = false := by
  cases h : hasSub tok s with
  | false => rfl
  | true => exact absurd (hasSub_mem tok s h c hc) hs

/-- Helper: decimal digit characters are not `{`. -/
theorem digitChar_ne_brace : ∀ m < 10, Char.ofNat (48 + m) ≠ '{' := by decide

/-- Helper: `natDigits` only produces digit characters, never `{`. -/
theorem natDigits_ne_brace (n : ℕ) : ∀ c ∈ natDigits n, c ≠ '{' := by
  induction n using Nat.strong_induction_on with
  | _ n ih =>
      rw [natDigits]
      split
      · next h =>
          intro c hc
          simp only [List.mem_singleton] at hc
          subst hc
          exact digitChar_ne_brace n h
      · next h =>
          intro c hc
          rw [List.mem_append] at hc
          rcases hc with hc | hc
          · exact ih (n / 10) (Nat.div_lt_self (by omega) (by norm_num)) c hc
          · simp only [List.mem_singleton] at hc
            subst hc
            exact digitChar_ne_brace (n % 10) (Nat.mod_lt _ (by norm_num))

/-- Helper: grouping thousands only adds commas. -/
theorem mem_groupThousandsRev (l : List Char) (c : Char)
    (h : c ∈ groupThousandsRev l) : c ∈ l ∨ c = ',' := by
  induction l using groupThousandsRev.induct with
  | case1 l hlen ih =>
      rw [groupThousandsRev, dif_pos hlen] at h
      rw [List.mem_append, List.mem_append] at h
      rcases h with (h | h) | h
      · exact Or.inl (List.mem_of_mem_take h)
      · simp only [List.mem_singleton] at h; exact Or.inr h
      · rcases ih h with h2 | h2
        · exact Or.inl (List.mem_of_mem_drop h2)
        · exact Or.inr h2
  | case2 l hlen =>
      rw [groupThousandsRev, dif_neg hlen] at h
      exact Or.inl h

/-- Helper: the money string never contains `{` (its alphabet is digits,
`-`, `$`, `,` and `.`), so later placeholder replacements cannot touch it. -/
theorem formatMoney_no_brace (q : ℚ) : '{' ∉ (formatMoney q).data := by
  intro hmem
  unfold formatMoney at hmem
  dsimp only at hmem
  rw [String.data_append, String.data_append, String.data_append,
    String.data_append] at hmem
  simp only [List.mem_append] at hmem
  rcases hmem with ((((h | h) | h) | h) | h)
  · split at h <;> simp_all
  · simp_all
  · rcases List.mem_reverse.mp h with h2
    rcases mem_groupThousandsRev _ _ h2 with h3 | h3
    · exact natDigits_ne_brace _ _ (List.mem_reverse.mp h3) rfl
    · simp at h3
  · simp_all
  · simp only [List.mem_cons] at h
    rcases h with h | h | h
    · exact digitChar_ne_brace _ (Nat.div_lt_of_lt_mul (by omega)) h.symm
    · exact digitChar_ne_brace _ (Nat.mod_lt _ (by norm_num)) h.symm
    · simp at h

/-- **C9.** Whenever the computed grand total is non-zero, the contract total
that `fillData` substitutes for the `{CONTRACT_TOTAL}` placeholder is exactly
the grand total multiplied by 2, formatted as currency. -/
theorem fillData_contract_total (d : AgreementData) (today : String)
    (h : fillDataGrand d ≠ 0) :
    fillData "{CONTRACT_TOTAL}" (some d) today =
      formatMoney (fillDataGrand d * 2) := by
  unfold fillData
  simp only [Option.getD_some]
  rw [if_neg h]
  rw [safeReplaceAll_of_not_hasSub _ "{COMPANY_NAME}" _ (by decide) (by decide)]
  rw [safeReplaceAll_of_not_hasSub _ "{ABN}" _ (by decide) (by decide)]
  rw [safeReplaceAll_of_not_hasSub _ "{ADDRESS}" _ (by decide) (by decide)]
  rw [safeReplaceAll_of_not_hasSub _ "{ACCOUNTS_EMAILS}" _ (by decide) (by decide)]
  rw [safeReplaceAll_of_not_hasSub _ "{ACCOUNT_PHONE}" _ (by decide) (by decide)]
  rw [safeReplaceAll_of_not_hasSub _ "{START_DATE}" _ (by decide) (by decide)]
  rw [safeReplaceAll_of_not_hasSub _ "{END_DATE}" _ (by decide) (by decide)]
  rw [safeReplaceAll_self "{CONTRACT_TOTAL}" _ (by decide)]
  rw [safeReplaceAll_of_not_hasSub _ "{SERVICE-CONTENT}" _ (by decide)
    (not_hasSub_of_mem_not_mem _ _ '{' (by decide) (formatMoney_no_brace _))]
  rw [safeReplaceAll_of_not_hasSub _ "{SITE_NAME}" _ (by decide)
    (not_hasSub_of_mem_not_mem _ _ '{' (by decide) (formatMoney_no_brace _))]
  rw [safeReplaceAll_of_not_hasSub _ "{NAME}" _ (by decide)
    (not_hasSub_of_mem_not_mem _ _ '{' (by decide) (formatMoney_no_brace _))]
  rw [safeReplaceAll_of_not_hasSub _ "{SIGNATURE}" _ (by decide)
    (not_hasSub_of_mem_not_mem _ _ '{' (by decide) (formatMoney_no_brace _))]
  rw [safeReplaceAll_of_not_hasSub _ "{DATE}" _ (by decide)
    (not_hasSub_of_mem_not_mem _ _ '{' (by decide) (formatMoney_no_brace _))]
  rw [safeReplaceAll_of_not_hasSub _ "{SALESPERSON}" _ (by decide)
    (not_hasSub_of_mem_not_mem _ _ '{' (by decide) (formatMoney_no_brace _))]
  rw [safeReplaceAll_of_not_hasSub _ "{INCENTIVES-CONTENT}" _ (by decide)
    (not_hasSub_of_mem_not_mem _ _ '{' (by decide) (formatMoney_no_brace _))]

/-- Witness for C9: the scenario-A data object (grand total 3600) yields the
doubled, currency-formatted contract total. -/
theorem fillData_contract_total_witness :
    fillData "{CONTRACT_TOTAL}" (some scenarioAData) "01/01/2025" =
      formatMoney (fillDataGrand scenarioAData * 2) :=
  fillData_contract_total scenarioAData "01/01/2025" (by
    norm_num +decide [fillDataGrand, fillDataFrequencies, scenarioAData,
      emptyAgreementData, computeGrandTotal, gtSubtotal, gtChuteAnnual,
      gtEquipAnnual, gtHopperAnnual, gtWasteAnnual, gtBinAnnual, gtOdourAnnual,
      gtDiscountAmt, gtServiceCount, freqList, freqSelected, getServices,
      getServiceAnualCost, getServiceAnualChuteCost, getServiceAnualEquipmentCost,
      frequencyToMultiplier, getNumber, getDiscountDefault, jsMax, numOr0,
      annotateService, scenarioAService, scenarioASite, JVal.truthy, unitsLookup,
      jvalKey, jsOrNull])

/-- **C10.** Whenever the computed grand total is 0 (the only falsy rational),
`fillData` replaces the `{CONTRACT_TOTAL}` placeholder with the empty string
rather than a formatted `$0.00`. -/
theorem fillData_contract_total_zero (d : AgreementData) (today : String)
    (h : fillDataGrand d = 0) :
    fillData "{CONTRACT_TOTAL}" (some d) today = "" := by
  unfold fillData
  simp only [Option.getD_some]
  rw [if_pos h]
  rw [safeReplaceAll_of_not_hasSub _ "{COMPANY_NAME}" _ (by decide) (by decide)]
  rw [safeReplaceAll_of_not_hasSub _ "{ABN}" _ (by decide) (by decide)]
  rw [safeReplaceAll_of_not_hasSub _ "{ADDRESS}" _ (by decide) (by decide)]
  rw [safeReplaceAll_of_not_hasSub _ "{ACCOUNTS_EMAILS}" _ (by decide) (by decide)]
  rw [safeReplaceAll_of_not_hasSub _ "{ACCOUNT_PHONE}" _ (by decide) (by decide)]
  rw [safeReplaceAll_of_not_hasSub _ "{START_DATE}" _ (by decide) (by decide)]
  rw [safeReplaceAll_of_not_hasSub _ "{END_DATE}" _ (by decide) (by decide)]
  rw [safeReplaceAll_self "{CONTRACT_TOTAL}" _ (by decide)]
  rw [safeReplaceAll_empty, safeReplaceAll_empty, safeReplaceAll_empty,
    safeReplaceAll_empty, safeReplaceAll_empty, safeReplaceAll_empty,
    safeReplaceAll_empty]

/-- Witness for C10: the empty data object has grand total 0, so the
placeholder is replaced by the empty string. -/
theorem fillData_contract_total_zero_witness :
    fillData "{CONTRACT_TOTAL}" (some emptyAgreementData) "01/01/2025" = "" :=
  fillData_contract_total_zero emptyAgreementData "01/01/2025" (by
    norm_num +decide [fillDataGrand, fillDataFrequencies, emptyAgreementData,
      computeGrandTotal, gtSubtotal, gtChuteAnnual, gtEquipAnnual, gtHopperAnnual,
      gtWasteAnnual, gtBinAnnual, gtOdourAnnual, gtDiscountAmt, gtServiceCount,
      freqList, freqSelected, getServices, getServiceAnualCost,
      getServiceAnualChuteCost, getServiceAnualEquipmentCost,
      frequencyToMultiplier, getNumber, getDiscountDefault, jsMax, numOr0,
      JVal.truthy])
